import Mathlib

/-!
Shallow embedding of the configuration module `configsettings.py` of the
Autonomous Adaptive Trading Engine (AATE).

The module declares a pydantic-v1 `BaseSettings` subclass `Settings` with
compiled-in defaults, two required Firebase fields, two field validators
(`validate_trading_mode`, run as a pre-validator on the raw string, and
`validate_position_size`, run after coercion), an `.env` override file with
case-insensitive field-name matching, and a static exchange table
`EXCHANGE_CONFIGS`.

Modelling conventions:
- Python `float` fields are modelled as `ℚ` (the validation logic only
  compares against 0 and 1, where rational and IEEE comparison agree on the
  parsed decimal literals involved).
- Python `int` is the unbounded `Int`.
- The environment and the `.env` override file are association lists from
  variable names to raw string values; pydantic-v1 merges them with the real
  environment taking precedence and matches names case-insensitively
  (`Config.case_sensitive = False`).
- pydantic-v1 processes fields in declaration order and collects one error
  per failing field into a single `ValidationError`; `load` returns the
  collected error list on failure, mirroring that.
-/

/-- The `TradingMode` enum of the source: `BACKTEST`, `PAPER`, `LIVE`. -/
inductive TradingMode where
  | backtest
  | paper
  | live
deriving DecidableEq, Repr

/-- The `DataSource` enum of the source: `CCXT`, `ALPACA`, `COINGECKO`. -/
inductive DataSource where
  | ccxt
  | alpaca
  | coingecko
deriving DecidableEq, Repr

/-- The `ExchangeConfig` dataclass: per-exchange connection parameters. -/
structure ExchangeConfig where
  name : String
  api_key : Option String := none
  api_secret : Option String := none
  rate_limit : Int := 10
  sandbox : Bool := true
deriving DecidableEq, Repr

/-- Error taxonomy of settings loading: a required field absent after
resolution, a raw value that does not parse into the declared type, a
numeric bound violation, or an invalid enum literal. -/
inductive ErrKind where
  | missingRequiredField
  | typeCoercion
  | rangeValidation
  | enumValidation
deriving DecidableEq, Repr

/-- A configuration error names the offending field, the kind of failure
and a human-readable reason (pydantic-v1 reports `(loc, msg, type)`). -/
structure ConfigError where
  field : String
  kind : ErrKind
  reason : String
deriving DecidableEq, Repr

/-- The `Settings` model: every field of the source class, in declaration
order, with its declared type. -/
structure Settings where
  APP_NAME : String
  VERSION : String
  TRADING_MODE : TradingMode
  LOG_LEVEL : String
  FIREBASE_PROJECT_ID : String
  FIREBASE_CREDENTIALS_PATH : String
  DATA_SOURCES : List DataSource
  DEFAULT_SYMBOLS : List String
  DATA_UPDATE_INTERVAL : Int
  INITIAL_CAPITAL : ℚ
  MAX_POSITION_SIZE : ℚ
  STOP_LOSS_PCT : ℚ
  TAKE_PROFIT_PCT : ℚ
  RL_MODEL_PATH : String
  RL_LEARNING_RATE : ℚ
  RL_GAMMA : ℚ
  RL_BUFFER_SIZE : Int
  RL_BATCH_SIZE : Int
  GA_POPULATION_SIZE : Int
  GA_GENERATIONS : Int
  GA_MUTATION_RATE : ℚ
  GA_CROSSOVER_RATE : ℚ
  MAX_DRAWDOWN_PCT : ℚ
  MAX_DAILY_LOSS_PCT : ℚ
  CORRELATION_THRESHOLD : ℚ
deriving DecidableEq, Repr

/-- Raw configuration input: an association list from variable names to raw
string values (used for both the process environment and the `.env` file). -/
abbrev RawEnv := List (String × String)

/-- ASCII lower-casing of one character, the case folding Python's
`str.lower()` applies on the identifiers and enum literals this module
compares. -/
def lowerChar (c : Char) : Char :=
  if 65 ≤ c.toNat ∧ c.toNat ≤ 90 then Char.ofNat (c.toNat + 32) else c

/-- ASCII `str.lower()` on a whole string. -/
def strToLower (s : String) : String :=
  ⟨s.data.map lowerChar⟩

/-- Whether a character is ASCII whitespace, as stripped by Python's
`str.strip()` on the plain values this module reads. -/
def isWsCh (c : Char) : Bool :=
  c = ' ' || c = '\t' || c = '\n' || c = '\r'

/-- Python `str.strip()`: drop ASCII whitespace from both ends. -/
def trimChars (cs : List Char) : List Char :=
  ((cs.dropWhile isWsCh).reverse.dropWhile isWsCh).reverse

/-- Whether a character is an ASCII decimal digit. -/
def isDigitCh (c : Char) : Bool :=
  48 ≤ c.toNat && c.toNat ≤ 57

/-- The value of a big-endian ASCII digit list (accumulator form). -/
def digitsVal : List Char → Nat → Nat
  | [], acc => acc
  | c :: cs, acc => digitsVal cs (10 * acc + (c.toNat - 48))

/-- A nonempty all-digit character list read as a natural number. -/
def natOfDigits (cs : List Char) : Option Nat :=
  if cs ≠ [] ∧ cs.all isDigitCh then some (digitsVal cs 0) else none

/-- Split a character list on a separator character (Python `str.split`). -/
def splitOnChar (sep : Char) : List Char → List (List Char)
  | [] => [[]]
  | c :: cs =>
    let r := splitOnChar sep cs
    if c = sep then [] :: r
    else
      match r with
      | [] => [[c]]
      | g :: gs => (c :: g) :: gs

/-- Case-insensitive lookup of a settings field name in a raw environment,
modelling pydantic-v1 `Config.case_sensitive = False` (names are compared
lower-cased). -/
def lookupCI (kvs : RawEnv) (key : String) : Option String :=
  (kvs.find? (fun p => strToLower p.1 == strToLower key)).map Prod.snd

/-- Per-field resolution order of pydantic-v1 `BaseSettings`: the process
environment, then the `.env` override file, then (at the caller) the
compiled-in default. -/
def resolveRaw (env file : RawEnv) (key : String) : Option String :=
  match lookupCI env key with
  | some v => some v
  | none => lookupCI file key

/-- Python `int(str)` on a trimmed optionally-signed decimal string, the
coercion pydantic-v1 applies to `int` fields fed from the environment. -/
def parseInt (s : String) : Option Int :=
  match trimChars s.data with
  | '-' :: rest => (natOfDigits rest).map (fun n => -(n : Int))
  | '+' :: rest => (natOfDigits rest).map Int.ofNat
  | cs => (natOfDigits cs).map Int.ofNat

/-- Python `float(str)` restricted to plain decimal notation (optional sign,
digits, optional fractional part), the coercion pydantic-v1 applies to
`float` fields; the value is represented exactly as a rational. -/
def parseFloat (s : String) : Option ℚ :=
  let t := trimChars s.data
  let neg := t.head? = some '-'
  let u := if t.head? = some '-' ∨ t.head? = some '+' then t.drop 1 else t
  let mag : Option ℚ :=
    match splitOnChar '.' u with
    | [a] => (natOfDigits a).map (fun n => (n : ℚ))
    | [a, b] =>
      if a = [] ∧ b = [] then none
      else
        match (if a = [] then some 0 else natOfDigits a),
              (if b = [] then some 0 else natOfDigits b) with
        | some na, some nb =>
          some (mkRat (na * 10 ^ b.length + nb) (10 ^ b.length))
        | _, _ => none
    | _ => none
  mag.map (fun v => if neg then -v else v)

/-- pydantic-v1 parses environment values for complex (list-valued) fields
as JSON; this models `json.loads` restricted to arrays of escape-free
double-quoted strings, the shape those fields use. -/
def parseStringList (s : String) : Option (List String) :=
  let t := trimChars s.data
  if t.head? = some '[' ∧ t.getLast? = some ']' then
    let inner := trimChars (t.drop 1).dropLast
    if inner = [] then some []
    else
      (splitOnChar ',' inner).mapM (fun p =>
        let q := trimChars p
        if 2 ≤ q.length ∧ q.head? = some '"' ∧ q.getLast? = some '"' then
          some ⟨(q.drop 1).dropLast⟩
        else none)
  else none

/-- Enum coercion for `TradingMode` (pydantic matches the enum value). -/
def tradingModeOfString (s : String) : Option TradingMode :=
  if s = "backtest" then some .backtest
  else if s = "paper" then some .paper
  else if s = "live" then some .live
  else none

/-- Enum coercion for `DataSource` (pydantic matches the enum value). -/
def dataSourceOfString (s : String) : Option DataSource :=
  if s = "ccxt" then some .ccxt
  else if s = "alpaca" then some .alpaca
  else if s = "coingecko" then some .coingecko
  else none

/-- A plain string field: raw value used as-is, else the default
(`str` coercion from a string never fails). -/
def strField (name dflt : String) (r : String → Option String) :
    Except ConfigError String :=
  match r name with
  | none => .ok dflt
  | some s => .ok s

/-- A required string field declared `Field(...)`: absence after resolution
is a `field required` error; any present string (the empty string included)
is accepted. -/
def requiredStrField (name : String) (r : String → Option String) :
    Except ConfigError String :=
  match r name with
  | none => .error ⟨name, .missingRequiredField, "field required"⟩
  | some s => .ok s

/-- An `int` field: raw value goes through `int()` coercion, else the
default. -/
def intField (name : String) (dflt : Int) (r : String → Option String) :
    Except ConfigError Int :=
  match r name with
  | none => .ok dflt
  | some s =>
    match parseInt s with
    | some v => .ok v
    | none => .error ⟨name, .typeCoercion, "value is not a valid integer"⟩

/-- A `float` field: raw value goes through `float()` coercion, else the
default. -/
def floatField (name : String) (dflt : ℚ) (r : String → Option String) :
    Except ConfigError ℚ :=
  match r name with
  | none => .ok dflt
  | some s =>
    match parseFloat s with
    | some v => .ok v
    | none => .error ⟨name, .typeCoercion, "value is not a valid float"⟩

/-- The `validate_trading_mode` pre-validator: lower-cases a raw string and
requires membership in `["backtest", "paper", "live"]`, raising
`Invalid trading mode: ...` otherwise. -/
def validate_trading_mode (v : String) : Except ConfigError String :=
  let v := strToLower v
  if v = "backtest" ∨ v = "paper" ∨ v = "live" then .ok v
  else .error ⟨"TRADING_MODE", .enumValidation, "Invalid trading mode: " ++ v⟩

/-- The `validate_position_size` validator, run after coercion: requires
`0 < v ≤ 1`. -/
def validate_position_size (v : ℚ) : Except ConfigError ℚ :=
  if 0 < v ∧ v ≤ 1 then .ok v
  else .error ⟨"MAX_POSITION_SIZE", .rangeValidation,
    "MAX_POSITION_SIZE must be between 0 and 1"⟩

/-- The `TRADING_MODE` field: default `TradingMode.PAPER`; a raw value is
first lower-cased and checked by the pre-validator, then coerced to the
enum (the coercion branch cannot fail after the pre-validator). -/
def tradingModeField (r : String → Option String) :
    Except ConfigError TradingMode :=
  match r "TRADING_MODE" with
  | none => .ok .paper
  | some s =>
    match validate_trading_mode s with
    | .error e => .error e
    | .ok v =>
      match tradingModeOfString v with
      | some m => .ok m
      | none => .error ⟨"TRADING_MODE", .typeCoercion,
          "value is not a valid enumeration member"⟩

/-- The `MAX_POSITION_SIZE` field: default `0.1`; a raw value is coerced by
`float()` and then range-checked by `validate_position_size` (the validator
is not run on the untouched default, matching pydantic-v1). -/
def maxPositionSizeField (r : String → Option String) :
    Except ConfigError ℚ :=
  match r "MAX_POSITION_SIZE" with
  | none => .ok (mkRat 1 10)
  | some s =>
    match parseFloat s with
    | none => .error ⟨"MAX_POSITION_SIZE", .typeCoercion,
        "value is not a valid float"⟩
    | some v => validate_position_size v

/-- The `DATA_SOURCES` field: default `[DataSource.CCXT]`; a raw value is
parsed as a JSON list of strings, each coerced to the `DataSource` enum. -/
def dataSourcesField (r : String → Option String) :
    Except ConfigError (List DataSource) :=
  match r "DATA_SOURCES" with
  | none => .ok [.ccxt]
  | some s =>
    match parseStringList s with
    | none => .error ⟨"DATA_SOURCES", .typeCoercion,
        "value is not a valid list"⟩
    | some xs =>
      match xs.mapM dataSourceOfString with
      | some ds => .ok ds
      | none => .error ⟨"DATA_SOURCES", .typeCoercion,
          "value is not a valid enumeration member"⟩

/-- The `DEFAULT_SYMBOLS` field: default three symbols; a raw value is
parsed as a JSON list of strings. -/
def defaultSymbolsField (r : String → Option String) :
    Except ConfigError (List String) :=
  match r "DEFAULT_SYMBOLS" with
  | none => .ok ["BTC/USDT", "ETH/USDT", "SOL/USDT"]
  | some s =>
    match parseStringList s with
    | none => .error ⟨"DEFAULT_SYMBOLS", .typeCoercion,
        "value is not a valid list"⟩
    | some xs => .ok xs

/-- The error contribution of one field computation. -/
def errsOf {α : Type} (e : Except ConfigError α) : List ConfigError :=
  match e with
  | .ok _ => []
  | .error c => [c]

/-- The resolved value of a field computation, with a fallback used only
when the computation failed (and the snapshot is discarded anyway). -/
def valOf {α : Type} (e : Except ConfigError α) (fallback : α) : α :=
  match e with
  | .ok v => v
  | .error _ => fallback

/-- The field computations of one load, applied to a resolver `r`, named
here once so that `loadErrors` and `buildSettings` agree field by field. -/
def fieldExcepts (r : String → Option String) :
    Except ConfigError String × Except ConfigError String ×
    Except ConfigError TradingMode × Except ConfigError String ×
    Except ConfigError String × Except ConfigError String ×
    Except ConfigError (List DataSource) ×
    Except ConfigError (List String) × Except ConfigError Int ×
    Except ConfigError ℚ × Except ConfigError ℚ × Except ConfigError ℚ ×
    Except ConfigError ℚ × Except ConfigError String ×
    Except ConfigError ℚ × Except ConfigError ℚ × Except ConfigError Int ×
    Except ConfigError Int × Except ConfigError Int ×
    Except ConfigError Int × Except ConfigError ℚ × Except ConfigError ℚ ×
    Except ConfigError ℚ × Except ConfigError ℚ × Except ConfigError ℚ :=
  (strField "APP_NAME" "Autonomous Adaptive Trading Engine" r,
   strField "VERSION" "1.0.0" r,
   tradingModeField r,
   strField "LOG_LEVEL" "INFO" r,
   requiredStrField "FIREBASE_PROJECT_ID" r,
   requiredStrField "FIREBASE_CREDENTIALS_PATH" r,
   dataSourcesField r,
   defaultSymbolsField r,
   intField "DATA_UPDATE_INTERVAL" 60 r,
   floatField "INITIAL_CAPITAL" 10000 r,
   maxPositionSizeField r,
   floatField "STOP_LOSS_PCT" (mkRat 2 100) r,
   floatField "TAKE_PROFIT_PCT" (mkRat 5 100) r,
   strField "RL_MODEL_PATH" "models/rl_model.zip" r,
   floatField "RL_LEARNING_RATE" (mkRat 3 10000) r,
   floatField "RL_GAMMA" (mkRat 99 100) r,
   intField "RL_BUFFER_SIZE" 100000 r,
   intField "RL_BATCH_SIZE" 64 r,
   intField "GA_POPULATION_SIZE" 50 r,
   intField "GA_GENERATIONS" 100 r,
   floatField "GA_MUTATION_RATE" (mkRat 1 10) r,
   floatField "GA_CROSSOVER_RATE" (mkRat 7 10) r,
   floatField "MAX_DRAWDOWN_PCT" (mkRat 15 100) r,
   floatField "MAX_DAILY_LOSS_PCT" (mkRat 5 100) r,
   floatField "CORRELATION_THRESHOLD" (mkRat 7 10) r)

/-- The validation errors of one load, one entry per failing field, in
field declaration order — pydantic-v1 collects every field's error into a
single `ValidationError` rather than stopping at the first. -/
def loadErrors (r : String → Option String) : List ConfigError :=
  match fieldExcepts r with
  | (f1, f2, f3, f4, f5, f6, f7, f8, f9, f10, f11, f12, f13, f14, f15, f16,
     f17, f18, f19, f20, f21, f22, f23, f24, f25) =>
    errsOf f1 ++ errsOf f2 ++ errsOf f3 ++ errsOf f4 ++ errsOf f5 ++
    errsOf f6 ++ errsOf f7 ++ errsOf f8 ++ errsOf f9 ++ errsOf f10 ++
    errsOf f11 ++ errsOf f12 ++ errsOf f13 ++ errsOf f14 ++ errsOf f15 ++
    errsOf f16 ++ errsOf f17 ++ errsOf f18 ++ errsOf f19 ++ errsOf f20 ++
    errsOf f21 ++ errsOf f22 ++ errsOf f23 ++ errsOf f24 ++ errsOf f25

/-- The settings snapshot of one load; the fallback of each `valOf` is dead
code, reached only when `loadErrors` is nonempty and `load` discards the
snapshot. -/
def buildSettings (r : String → Option String) : Settings :=
  match fieldExcepts r with
  | (f1, f2, f3, f4, f5, f6, f7, f8, f9, f10, f11, f12, f13, f14, f15, f16,
     f17, f18, f19, f20, f21, f22, f23, f24, f25) =>
    { APP_NAME := valOf f1 ""
      VERSION := valOf f2 ""
      TRADING_MODE := valOf f3 .paper
      LOG_LEVEL := valOf f4 ""
      FIREBASE_PROJECT_ID := valOf f5 ""
      FIREBASE_CREDENTIALS_PATH := valOf f6 ""
      DATA_SOURCES := valOf f7 []
      DEFAULT_SYMBOLS := valOf f8 []
      DATA_UPDATE_INTERVAL := valOf f9 0
      INITIAL_CAPITAL := valOf f10 0
      MAX_POSITION_SIZE := valOf f11 0
      STOP_LOSS_PCT := valOf f12 0
      TAKE_PROFIT_PCT := valOf f13 0
      RL_MODEL_PATH := valOf f14 ""
      RL_LEARNING_RATE := valOf f15 0
      RL_GAMMA := valOf f16 0
      RL_BUFFER_SIZE := valOf f17 0
      RL_BATCH_SIZE := valOf f18 0
      GA_POPULATION_SIZE := valOf f19 0
      GA_GENERATIONS := valOf f20 0
      GA_MUTATION_RATE := valOf f21 0
      GA_CROSSOVER_RATE := valOf f22 0
      MAX_DRAWDOWN_PCT := valOf f23 0
      MAX_DAILY_LOSS_PCT := valOf f24 0
      CORRELATION_THRESHOLD := valOf f25 0 }

/-- `Settings()` construction: resolve every field from the environment,
the `.env` override file and the defaults, coerce, validate, and either
return the snapshot or fail with the collected per-field errors. -/
def load (env file : RawEnv) : Except (List ConfigError) Settings :=
  let r := resolveRaw env file
  match loadErrors r with
  | [] => .ok (buildSettings r)
  | errs => .error errs

/-- The static `EXCHANGE_CONFIGS` table, as the ordered association list of
the source dict literal. -/
def EXCHANGE_CONFIGS : List (String × ExchangeConfig) :=
  [("binance", { name := "binance", sandbox := true, rate_limit := 10 }),
   ("coinbase", { name := "coinbase", sandbox := true, rate_limit := 5 })]

/-- Profile lookup against the static table (`EXCHANGE_CONFIGS.get(id)`):
`none` is the distinct not-found outcome. -/
def get_profile (id : String) : Option ExchangeConfig :=
  (EXCHANGE_CONFIGS.find? (fun p => p.1 == id)).map Prod.snd

/-- A settings field value, for observing snapshots uniformly by name. -/
inductive FieldVal where
  | str (v : String)
  | int (v : Int)
  | rat (v : ℚ)
  | mode (v : TradingMode)
  | sources (v : List DataSource)
  | symbols (v : List String)
deriving DecidableEq, Repr

/-- Read one settings field by its declared name — the read-only attribute
access the rest of the application performs on the snapshot. -/
def getField (st : Settings) (name : String) : Option FieldVal :=
  if name = "APP_NAME" then some (.str st.APP_NAME)
  else if name = "VERSION" then some (.str st.VERSION)
  else if name = "TRADING_MODE" then some (.mode st.TRADING_MODE)
  else if name = "LOG_LEVEL" then some (.str st.LOG_LEVEL)
  else if name = "FIREBASE_PROJECT_ID" then some (.str st.FIREBASE_PROJECT_ID)
  else if name = "FIREBASE_CREDENTIALS_PATH" then
    some (.str st.FIREBASE_CREDENTIALS_PATH)
  else if name = "DATA_SOURCES" then some (.sources st.DATA_SOURCES)
  else if name = "DEFAULT_SYMBOLS" then some (.symbols st.DEFAULT_SYMBOLS)
  else if name = "DATA_UPDATE_INTERVAL" then
    some (.int st.DATA_UPDATE_INTERVAL)
  else if name = "INITIAL_CAPITAL" then some (.rat st.INITIAL_CAPITAL)
  else if name = "MAX_POSITION_SIZE" then some (.rat st.MAX_POSITION_SIZE)
  else if name = "STOP_LOSS_PCT" then some (.rat st.STOP_LOSS_PCT)
  else if name = "TAKE_PROFIT_PCT" then some (.rat st.TAKE_PROFIT_PCT)
  else if name = "RL_MODEL_PATH" then some (.str st.RL_MODEL_PATH)
  else if name = "RL_LEARNING_RATE" then some (.rat st.RL_LEARNING_RATE)
  else if name = "RL_GAMMA" then some (.rat st.RL_GAMMA)
  else if name = "RL_BUFFER_SIZE" then some (.int st.RL_BUFFER_SIZE)
  else if name = "RL_BATCH_SIZE" then some (.int st.RL_BATCH_SIZE)
  else if name = "GA_POPULATION_SIZE" then some (.int st.GA_POPULATION_SIZE)
  else if name = "GA_GENERATIONS" then some (.int st.GA_GENERATIONS)
  else if name = "GA_MUTATION_RATE" then some (.rat st.GA_MUTATION_RATE)
  else if name = "GA_CROSSOVER_RATE" then some (.rat st.GA_CROSSOVER_RATE)
  else if name = "MAX_DRAWDOWN_PCT" then some (.rat st.MAX_DRAWDOWN_PCT)
  else if name = "MAX_DAILY_LOSS_PCT" then some (.rat st.MAX_DAILY_LOSS_PCT)
  else if name = "CORRELATION_THRESHOLD" then
    some (.rat st.CORRELATION_THRESHOLD)
  else none

/-- The operations available on the component after a successful load:
reading a settings attribute, looking up an exchange profile, and
assigning a settings attribute — the source's `Settings.Config` does not
set `allow_mutation = False`, so pydantic-v1 permits attribute assignment
on the instance (and, with `validate_assignment` also left unset, applies
no validator to the assigned value). -/
inductive ConfigOp where
  | readSettingsField (name : String)
  | getProfileOf (id : String)
  | setSettingsField (name : String) (v : FieldVal)
deriving DecidableEq, Repr

/-- Whether an operation is an attribute assignment. -/
def isAssignOp : ConfigOp → Bool
  | .setSettingsField _ _ => true
  | _ => false

/-- pydantic-v1 attribute assignment on the snapshot, restricted to values
of the field's declared type (Python would store an ill-typed object
unvalidated; the typed fragment suffices here). The assigned value is not
validated: `Config` sets neither `allow_mutation = False` nor
`validate_assignment`. -/
def setField (st : Settings) (name : String) (v : FieldVal) : Settings :=
  match name, v with
  | "APP_NAME", .str s => { st with APP_NAME := s }
  | "VERSION", .str s => { st with VERSION := s }
  | "TRADING_MODE", .mode m => { st with TRADING_MODE := m }
  | "LOG_LEVEL", .str s => { st with LOG_LEVEL := s }
  | "FIREBASE_PROJECT_ID", .str s => { st with FIREBASE_PROJECT_ID := s }
  | "FIREBASE_CREDENTIALS_PATH", .str s =>
    { st with FIREBASE_CREDENTIALS_PATH := s }
  | "DATA_SOURCES", .sources d => { st with DATA_SOURCES := d }
  | "DEFAULT_SYMBOLS", .symbols d => { st with DEFAULT_SYMBOLS := d }
  | "DATA_UPDATE_INTERVAL", .int i => { st with DATA_UPDATE_INTERVAL := i }
  | "INITIAL_CAPITAL", .rat q => { st with INITIAL_CAPITAL := q }
  | "MAX_POSITION_SIZE", .rat q => { st with MAX_POSITION_SIZE := q }
  | "STOP_LOSS_PCT", .rat q => { st with STOP_LOSS_PCT := q }
  | "TAKE_PROFIT_PCT", .rat q => { st with TAKE_PROFIT_PCT := q }
  | "RL_MODEL_PATH", .str s => { st with RL_MODEL_PATH := s }
  | "RL_LEARNING_RATE", .rat q => { st with RL_LEARNING_RATE := q }
  | "RL_GAMMA", .rat q => { st with RL_GAMMA := q }
  | "RL_BUFFER_SIZE", .int i => { st with RL_BUFFER_SIZE := i }
  | "RL_BATCH_SIZE", .int i => { st with RL_BATCH_SIZE := i }
  | "GA_POPULATION_SIZE", .int i => { st with GA_POPULATION_SIZE := i }
  | "GA_GENERATIONS", .int i => { st with GA_GENERATIONS := i }
  | "GA_MUTATION_RATE", .rat q => { st with GA_MUTATION_RATE := q }
  | "GA_CROSSOVER_RATE", .rat q => { st with GA_CROSSOVER_RATE := q }
  | "MAX_DRAWDOWN_PCT", .rat q => { st with MAX_DRAWDOWN_PCT := q }
  | "MAX_DAILY_LOSS_PCT", .rat q => { st with MAX_DAILY_LOSS_PCT := q }
  | "CORRELATION_THRESHOLD", .rat q => { st with CORRELATION_THRESHOLD := q }
  | _, _ => st

/-- What one post-load operation observes. -/
inductive ConfigObs where
  | fieldObs (v : Option FieldVal)
  | profileObs (v : Option ExchangeConfig)
  | assignedObs
deriving DecidableEq, Repr

/-- One post-load operation: the resulting component state (the snapshot)
and the observation the caller receives. -/
def stepOp (st : Settings) : ConfigOp → Settings × ConfigObs
  | .readSettingsField n => (st, .fieldObs (getField st n))
  | .getProfileOf id => (st, .profileObs (get_profile id))
  | .setSettingsField n v => (setField st n v, .assignedObs)

/-- The snapshot after running a sequence of post-load operations. -/
def runOps (st : Settings) (ops : List ConfigOp) : Settings :=
  ops.foldl (fun s op => (stepOp s op).1) st

instance {ε α : Type} [DecidableEq ε] [DecidableEq α] :
    DecidableEq (Except ε α) := fun a b =>
  match a, b with
  | .ok x, .ok y =>
    if h : x = y then .isTrue (by rw [h]) else .isFalse (by simp [h])
  | .ok _, .error _ => .isFalse (by simp)
  | .error _, .ok _ => .isFalse (by simp)
  | .error x, .error y =>
    if h : x = y then .isTrue (by rw [h]) else .isFalse (by simp [h])

/-- A resolver with one field name masked out (resolving to absent); used
to say "the configuration with this field removed" in theorems about a
single field. -/
def maskKey (r : String → Option String) (key : String) :
    String → Option String :=
  fun k => if k = key then none else r k

/-- A resolver with a set of field names masked out. -/
def maskKeys (r : String → Option String) (keys : List String) :
    String → Option String :=
  fun k => if k ∈ keys then none else r k

theorem errsOf_ok {α : Type} (v : α) : errsOf (Except.ok v : Except ConfigError α) = [] := rfl

theorem errsOf_error {α : Type} (c : ConfigError) :
    errsOf (Except.error c : Except ConfigError α) = [c] := rfl

theorem valOf_ok {α : Type} (v fb : α) :
    valOf (Except.ok v : Except ConfigError α) fb = v := rfl

theorem loadErrors_eq (r : String → Option String) :
    loadErrors r =
    errsOf (strField "APP_NAME" "Autonomous Adaptive Trading Engine" r) ++
    errsOf (strField "VERSION" "1.0.0" r) ++
    errsOf (tradingModeField r) ++
    errsOf (strField "LOG_LEVEL" "INFO" r) ++
    errsOf (requiredStrField "FIREBASE_PROJECT_ID" r) ++
    errsOf (requiredStrField "FIREBASE_CREDENTIALS_PATH" r) ++
    errsOf (dataSourcesField r) ++
    errsOf (defaultSymbolsField r) ++
    errsOf (intField "DATA_UPDATE_INTERVAL" 60 r) ++
    errsOf (floatField "INITIAL_CAPITAL" 10000 r) ++
    errsOf (maxPositionSizeField r) ++
    errsOf (floatField "STOP_LOSS_PCT" (mkRat 2 100) r) ++
    errsOf (floatField "TAKE_PROFIT_PCT" (mkRat 5 100) r) ++
    errsOf (strField "RL_MODEL_PATH" "models/rl_model.zip" r) ++
    errsOf (floatField "RL_LEARNING_RATE" (mkRat 3 10000) r) ++
    errsOf (floatField "RL_GAMMA" (mkRat 99 100) r) ++
    errsOf (intField "RL_BUFFER_SIZE" 100000 r) ++
    errsOf (intField "RL_BATCH_SIZE" 64 r) ++
    errsOf (intField "GA_POPULATION_SIZE" 50 r) ++
    errsOf (intField "GA_GENERATIONS" 100 r) ++
    errsOf (floatField "GA_MUTATION_RATE" (mkRat 1 10) r) ++
    errsOf (floatField "GA_CROSSOVER_RATE" (mkRat 7 10) r) ++
    errsOf (floatField "MAX_DRAWDOWN_PCT" (mkRat 15 100) r) ++
    errsOf (floatField "MAX_DAILY_LOSS_PCT" (mkRat 5 100) r) ++
    errsOf (floatField "CORRELATION_THRESHOLD" (mkRat 7 10) r) := rfl

theorem load_ok_iff (env file : RawEnv) (st : Settings) :
    load env file = .ok st ↔
    loadErrors (resolveRaw env file) = [] ∧
    st = buildSettings (resolveRaw env file) := by
  unfold load
  cases h : loadErrors (resolveRaw env file) with
  | nil => simp [h, eq_comm]
  | cons c cs => simp [h, eq_comm]

theorem load_error_iff (env file : RawEnv) (errs : List ConfigError) :
    load env file = .error errs ↔
    loadErrors (resolveRaw env file) = errs ∧ errs ≠ [] := by
  unfold load
  cases h : loadErrors (resolveRaw env file) with
  | nil =>
    simp only [h]
    constructor
    · intro hc; cases hc
    · rintro ⟨rfl, hne⟩; cases hne rfl
  | cons c cs =>
    simp only [h]
    constructor
    · intro hc; cases hc; exact ⟨rfl, by simp⟩
    · rintro ⟨rfl, _⟩; rfl

theorem strField_congr {r1 r2 : String → Option String} (name dflt : String)
    (h : r1 name = r2 name) : strField name dflt r1 = strField name dflt r2 := by
  unfold strField; rw [h]

theorem requiredStrField_congr {r1 r2 : String → Option String}
    (name : String) (h : r1 name = r2 name) :
    requiredStrField name r1 = requiredStrField name r2 := by
  unfold requiredStrField; rw [h]

theorem intField_congr {r1 r2 : String → Option String} (name : String)
    (dflt : Int) (h : r1 name = r2 name) :
    intField name dflt r1 = intField name dflt r2 := by
  unfold intField; rw [h]

theorem floatField_congr {r1 r2 : String → Option String} (name : String)
    (dflt : ℚ) (h : r1 name = r2 name) :
    floatField name dflt r1 = floatField name dflt r2 := by
  unfold floatField; rw [h]

theorem tradingModeField_congr {r1 r2 : String → Option String}
    (h : r1 "TRADING_MODE" = r2 "TRADING_MODE") :
    tradingModeField r1 = tradingModeField r2 := by
  unfold tradingModeField; rw [h]

theorem maxPositionSizeField_parsed {r : String → Option String}
    {s : String} {v : ℚ} (h : r "MAX_POSITION_SIZE" = some s)
    (hp : parseFloat s = some v) :
    maxPositionSizeField r = validate_position_size v := by
  unfold maxPositionSizeField; rw [h]; simp [hp]

theorem tradingModeField_raw {r : String → Option String} {s : String}
    (h : r "TRADING_MODE" = some s) :
    tradingModeField r =
    (match validate_trading_mode s with
     | .error e => .error e
     | .ok v =>
       match tradingModeOfString v with
       | some m => .ok m
       | none => .error ⟨"TRADING_MODE", .typeCoercion,
           "value is not a valid enumeration member"⟩) := by
  unfold tradingModeField; rw [h]

theorem requiredStrField_some {r : String → Option String} (name : String)
    {s : String} (h : r name = some s) :
    requiredStrField name r = .ok s := by
  unfold requiredStrField; rw [h]

theorem intField_ok_of_nil {r : String → Option String} (name : String)
    (dflt : Int) {s : String} (hr : r name = some s)
    (he : errsOf (intField name dflt r) = []) :
    parseInt s = some (valOf (intField name dflt r) 0) := by
  cases hp : parseInt s with
  | none =>
    rw [show intField name dflt r = .error ⟨name, .typeCoercion,
        "value is not a valid integer"⟩ from by
      unfold intField; rw [hr]; simp [hp]] at he
    simp [errsOf] at he
  | some v =>
    rw [show intField name dflt r = .ok v from by
      unfold intField; rw [hr]; simp [hp]]
    rw [valOf_ok]

theorem floatField_ok_of_nil {r : String → Option String} (name : String)
    (dflt : ℚ) {s : String} (hr : r name = some s)
    (he : errsOf (floatField name dflt r) = []) :
    parseFloat s = some (valOf (floatField name dflt r) 0) := by
  cases hp : parseFloat s with
  | none =>
    rw [show floatField name dflt r = .error ⟨name, .typeCoercion,
        "value is not a valid float"⟩ from by
      unfold floatField; rw [hr]; simp [hp]] at he
    simp [errsOf] at he
  | some v =>
    rw [show floatField name dflt r = .ok v from by
      unfold floatField; rw [hr]; simp [hp]]
    rw [valOf_ok]

theorem maxPositionSizeField_ok_of_nil {r : String → Option String}
    {s : String} (hr : r "MAX_POSITION_SIZE" = some s)
    (he : errsOf (maxPositionSizeField r) = []) :
    parseFloat s = some (valOf (maxPositionSizeField r) 0) := by
  cases hp : parseFloat s with
  | none =>
    rw [show maxPositionSizeField r = .error ⟨"MAX_POSITION_SIZE",
        .typeCoercion, "value is not a valid float"⟩ from by
      unfold maxPositionSizeField; rw [hr]; simp [hp]] at he
    simp [errsOf] at he
  | some v =>
    have h1 := maxPositionSizeField_parsed hr hp
    by_cases hv : 0 < v ∧ v ≤ 1
    · rw [show maxPositionSizeField r = .ok v from by
        rw [h1]; simp [validate_position_size, hv]]
      rw [valOf_ok]
    · rw [show maxPositionSizeField r = .error ⟨"MAX_POSITION_SIZE",
          .rangeValidation,
          "MAX_POSITION_SIZE must be between 0 and 1"⟩ from by
        rw [h1]; simp [validate_position_size, hv]] at he
      simp [errsOf] at he

theorem tradingModeField_ok_of_nil {r : String → Option String}
    {s : String} (hr : r "TRADING_MODE" = some s)
    (he : errsOf (tradingModeField r) = []) :
    tradingModeOfString (strToLower s) =
      some (valOf (tradingModeField r) .paper) := by
  by_cases hv : strToLower s = "backtest" ∨ strToLower s = "paper" ∨
      strToLower s = "live"
  · rcases hv with h | h | h
    · rw [show tradingModeField r = .ok .backtest from by
        rw [tradingModeField_raw hr]
        simp [validate_trading_mode, h, tradingModeOfString]]
      rw [valOf_ok, h]
      decide
    · rw [show tradingModeField r = .ok .paper from by
        rw [tradingModeField_raw hr]
        simp [validate_trading_mode, h, tradingModeOfString]]
      rw [valOf_ok, h]
      decide
    · rw [show tradingModeField r = .ok .live from by
        rw [tradingModeField_raw hr]
        simp [validate_trading_mode, h, tradingModeOfString]]
      rw [valOf_ok, h]
      decide
  · rw [show tradingModeField r = .error ⟨"TRADING_MODE", .enumValidation,
        "Invalid trading mode: " ++ strToLower s⟩ from by
      rw [tradingModeField_raw hr]
      simp only [validate_trading_mode]
      rw [if_neg hv]] at he
    simp [errsOf] at he

theorem dataSourcesField_ok_of_nil {r : String → Option String}
    {s : String} (hr : r "DATA_SOURCES" = some s)
    (he : errsOf (dataSourcesField r) = []) :
    ∃ xs, parseStringList s = some xs ∧
      xs.mapM dataSourceOfString = some (valOf (dataSourcesField r) []) := by
  cases hps : parseStringList s with
  | none =>
    rw [show dataSourcesField r = .error ⟨"DATA_SOURCES", .typeCoercion,
        "value is not a valid list"⟩ from by
      unfold dataSourcesField; rw [hr]; simp [hps]] at he
    simp [errsOf] at he
  | some xs =>
    cases hm : xs.mapM dataSourceOfString with
    | none =>
      rw [show dataSourcesField r = .error ⟨"DATA_SOURCES", .typeCoercion,
          "value is not a valid enumeration member"⟩ from by
        unfold dataSourcesField; rw [hr]; simp only [hps, hm]] at he
      simp [errsOf] at he
    | some ds =>
      refine ⟨xs, rfl, ?_⟩
      rw [show dataSourcesField r = .ok ds from by
        unfold dataSourcesField; rw [hr]; simp only [hps, hm]]
      rw [valOf_ok]
      exact hm

theorem defaultSymbolsField_ok_of_nil {r : String → Option String}
    {s : String} (hr : r "DEFAULT_SYMBOLS" = some s)
    (he : errsOf (defaultSymbolsField r) = []) :
    parseStringList s = some (valOf (defaultSymbolsField r) []) := by
  cases hps : parseStringList s with
  | none =>
    rw [show defaultSymbolsField r = .error ⟨"DEFAULT_SYMBOLS",
        .typeCoercion, "value is not a valid list"⟩ from by
      unfold defaultSymbolsField; rw [hr]; simp [hps]] at he
    simp [errsOf] at he
  | some xs =>
    rw [show defaultSymbolsField r = .ok xs from by
      unfold defaultSymbolsField; rw [hr]; simp only [hps]]
    rw [valOf_ok]


theorem maxPositionSizeField_congr {r1 r2 : String → Option String}
    (h : r1 "MAX_POSITION_SIZE" = r2 "MAX_POSITION_SIZE") :
    maxPositionSizeField r1 = maxPositionSizeField r2 := by
  unfold maxPositionSizeField; rw [h]

theorem dataSourcesField_congr {r1 r2 : String → Option String}
    (h : r1 "DATA_SOURCES" = r2 "DATA_SOURCES") :
    dataSourcesField r1 = dataSourcesField r2 := by
  unfold dataSourcesField; rw [h]

theorem defaultSymbolsField_congr {r1 r2 : String → Option String}
    (h : r1 "DEFAULT_SYMBOLS" = r2 "DEFAULT_SYMBOLS") :
    defaultSymbolsField r1 = defaultSymbolsField r2 := by
  unfold defaultSymbolsField; rw [h]

theorem requiredStrField_none {r : String → Option String} (name : String)
    (h : r name = none) :
    requiredStrField name r =
    .error ⟨name, .missingRequiredField, "field required"⟩ := by
  unfold requiredStrField; rw [h]

theorem intField_parsed {r : String → Option String} (name : String)
    (dflt : Int) {s : String} {v : Int} (h : r name = some s)
    (hp : parseInt s = some v) : intField name dflt r = .ok v := by
  unfold intField; rw [h]; simp [hp]

theorem floatField_parsed {r : String → Option String} (name : String)
    (dflt : ℚ) {s : String} {v : ℚ} (h : r name = some s)
    (hp : parseFloat s = some v) : floatField name dflt r = .ok v := by
  unfold floatField; rw [h]; simp [hp]

theorem maskKey_ne {r : String → Option String} {key k : String}
    (h : k ≠ key) : maskKey r key k = r k := by
  simp [maskKey, h]

theorem maskKeys_ne {r : String → Option String} {keys : List String}
    {k : String} (h : k ∉ keys) : maskKeys r keys k = r k := by
  simp [maskKeys, h]

/-- The names of the numeric fields other than MAX_POSITION_SIZE. -/
def numericFieldKeys : List String :=
  ["DATA_UPDATE_INTERVAL", "INITIAL_CAPITAL", "STOP_LOSS_PCT",
   "TAKE_PROFIT_PCT", "RL_LEARNING_RATE", "RL_GAMMA", "RL_BUFFER_SIZE",
   "RL_BATCH_SIZE", "GA_POPULATION_SIZE", "GA_GENERATIONS",
   "GA_MUTATION_RATE", "GA_CROSSOVER_RATE", "MAX_DRAWDOWN_PCT",
   "MAX_DAILY_LOSS_PCT", "CORRELATION_THRESHOLD"]

theorem loadErrors_eq_nil_iff (r : String → Option String) :
    loadErrors r = [] ↔
    errsOf (strField "APP_NAME" "Autonomous Adaptive Trading Engine" r) = [] ∧
    errsOf (strField "VERSION" "1.0.0" r) = [] ∧
    errsOf (tradingModeField r) = [] ∧
    errsOf (strField "LOG_LEVEL" "INFO" r) = [] ∧
    errsOf (requiredStrField "FIREBASE_PROJECT_ID" r) = [] ∧
    errsOf (requiredStrField "FIREBASE_CREDENTIALS_PATH" r) = [] ∧
    errsOf (dataSourcesField r) = [] ∧
    errsOf (defaultSymbolsField r) = [] ∧
    errsOf (intField "DATA_UPDATE_INTERVAL" 60 r) = [] ∧
    errsOf (floatField "INITIAL_CAPITAL" 10000 r) = [] ∧
    errsOf (maxPositionSizeField r) = [] ∧
    errsOf (floatField "STOP_LOSS_PCT" (mkRat 2 100) r) = [] ∧
    errsOf (floatField "TAKE_PROFIT_PCT" (mkRat 5 100) r) = [] ∧
    errsOf (strField "RL_MODEL_PATH" "models/rl_model.zip" r) = [] ∧
    errsOf (floatField "RL_LEARNING_RATE" (mkRat 3 10000) r) = [] ∧
    errsOf (floatField "RL_GAMMA" (mkRat 99 100) r) = [] ∧
    errsOf (intField "RL_BUFFER_SIZE" 100000 r) = [] ∧
    errsOf (intField "RL_BATCH_SIZE" 64 r) = [] ∧
    errsOf (intField "GA_POPULATION_SIZE" 50 r) = [] ∧
    errsOf (intField "GA_GENERATIONS" 100 r) = [] ∧
    errsOf (floatField "GA_MUTATION_RATE" (mkRat 1 10) r) = [] ∧
    errsOf (floatField "GA_CROSSOVER_RATE" (mkRat 7 10) r) = [] ∧
    errsOf (floatField "MAX_DRAWDOWN_PCT" (mkRat 15 100) r) = [] ∧
    errsOf (floatField "MAX_DAILY_LOSS_PCT" (mkRat 5 100) r) = [] ∧
    errsOf (floatField "CORRELATION_THRESHOLD" (mkRat 7 10) r) = [] := by
  rw [loadErrors_eq]
  simp [List.append_eq_nil, and_assoc]

/-- If the configuration with MAX_POSITION_SIZE masked out loads cleanly,
the only possible load errors are those of the MAX_POSITION_SIZE field. -/
theorem loadErrors_maskMPS (r : String → Option String)
    (hok : loadErrors (maskKey r "MAX_POSITION_SIZE") = []) :
    loadErrors r = errsOf (maxPositionSizeField r) := by
  rw [loadErrors_eq_nil_iff] at hok
  obtain ⟨h1, h2, h3, h4, h5, h6, h7, h8, h9, h10, h11, h12, h13, h14, h15, h16, h17, h18, h19, h20, h21, h22, h23, h24, h25⟩ := hok
  rw [strField_congr _ _ (maskKey_ne (by decide))] at h1
  rw [strField_congr _ _ (maskKey_ne (by decide))] at h2
  rw [tradingModeField_congr (maskKey_ne (by decide))] at h3
  rw [strField_congr _ _ (maskKey_ne (by decide))] at h4
  rw [requiredStrField_congr _ (maskKey_ne (by decide))] at h5
  rw [requiredStrField_congr _ (maskKey_ne (by decide))] at h6
  rw [dataSourcesField_congr (maskKey_ne (by decide))] at h7
  rw [defaultSymbolsField_congr (maskKey_ne (by decide))] at h8
  rw [intField_congr _ _ (maskKey_ne (by decide))] at h9
  rw [floatField_congr _ _ (maskKey_ne (by decide))] at h10
  rw [floatField_congr _ _ (maskKey_ne (by decide))] at h12
  rw [floatField_congr _ _ (maskKey_ne (by decide))] at h13
  rw [strField_congr _ _ (maskKey_ne (by decide))] at h14
  rw [floatField_congr _ _ (maskKey_ne (by decide))] at h15
  rw [floatField_congr _ _ (maskKey_ne (by decide))] at h16
  rw [intField_congr _ _ (maskKey_ne (by decide))] at h17
  rw [intField_congr _ _ (maskKey_ne (by decide))] at h18
  rw [intField_congr _ _ (maskKey_ne (by decide))] at h19
  rw [intField_congr _ _ (maskKey_ne (by decide))] at h20
  rw [floatField_congr _ _ (maskKey_ne (by decide))] at h21
  rw [floatField_congr _ _ (maskKey_ne (by decide))] at h22
  rw [floatField_congr _ _ (maskKey_ne (by decide))] at h23
  rw [floatField_congr _ _ (maskKey_ne (by decide))] at h24
  rw [floatField_congr _ _ (maskKey_ne (by decide))] at h25
  rw [loadErrors_eq]
  simp [h1, h2, h3, h4, h5, h6, h7, h8, h9, h10, h12, h13, h14, h15, h16, h17, h18, h19, h20, h21, h22, h23, h24, h25]

/-- If the configuration with TRADING_MODE masked out loads cleanly, the
only possible load errors are those of the TRADING_MODE field. -/
theorem loadErrors_maskTM (r : String → Option String)
    (hok : loadErrors (maskKey r "TRADING_MODE") = []) :
    loadErrors r = errsOf (tradingModeField r) := by
  rw [loadErrors_eq_nil_iff] at hok
  obtain ⟨h1, h2, h3, h4, h5, h6, h7, h8, h9, h10, h11, h12, h13, h14, h15, h16, h17, h18, h19, h20, h21, h22, h23, h24, h25⟩ := hok
  rw [strField_congr _ _ (maskKey_ne (by decide))] at h1
  rw [strField_congr _ _ (maskKey_ne (by decide))] at h2
  rw [strField_congr _ _ (maskKey_ne (by decide))] at h4
  rw [requiredStrField_congr _ (maskKey_ne (by decide))] at h5
  rw [requiredStrField_congr _ (maskKey_ne (by decide))] at h6
  rw [dataSourcesField_congr (maskKey_ne (by decide))] at h7
  rw [defaultSymbolsField_congr (maskKey_ne (by decide))] at h8
  rw [intField_congr _ _ (maskKey_ne (by decide))] at h9
  rw [floatField_congr _ _ (maskKey_ne (by decide))] at h10
  rw [maxPositionSizeField_congr (maskKey_ne (by decide))] at h11
  rw [floatField_congr _ _ (maskKey_ne (by decide))] at h12
  rw [floatField_congr _ _ (maskKey_ne (by decide))] at h13
  rw [strField_congr _ _ (maskKey_ne (by decide))] at h14
  rw [floatField_congr _ _ (maskKey_ne (by decide))] at h15
  rw [floatField_congr _ _ (maskKey_ne (by decide))] at h16
  rw [intField_congr _ _ (maskKey_ne (by decide))] at h17
  rw [intField_congr _ _ (maskKey_ne (by decide))] at h18
  rw [intField_congr _ _ (maskKey_ne (by decide))] at h19
  rw [intField_congr _ _ (maskKey_ne (by decide))] at h20
  rw [floatField_congr _ _ (maskKey_ne (by decide))] at h21
  rw [floatField_congr _ _ (maskKey_ne (by decide))] at h22
  rw [floatField_congr _ _ (maskKey_ne (by decide))] at h23
  rw [floatField_congr _ _ (maskKey_ne (by decide))] at h24
  rw [floatField_congr _ _ (maskKey_ne (by decide))] at h25
  rw [loadErrors_eq]
  simp [h1, h2, h4, h5, h6, h7, h8, h9, h10, h11, h12, h13, h14, h15, h16, h17, h18, h19, h20, h21, h22, h23, h24, h25]

/-- If the configuration with every non-range-validated numeric field
masked out loads cleanly, the only possible load errors are those of the
numeric fields themselves. -/
theorem loadErrors_maskNumeric (r : String → Option String)
    (hok : loadErrors (maskKeys r numericFieldKeys) = []) :
    loadErrors r = errsOf (intField "DATA_UPDATE_INTERVAL" 60 r) ++
    errsOf (floatField "INITIAL_CAPITAL" 10000 r) ++
    errsOf (floatField "STOP_LOSS_PCT" (mkRat 2 100) r) ++
    errsOf (floatField "TAKE_PROFIT_PCT" (mkRat 5 100) r) ++
    errsOf (floatField "RL_LEARNING_RATE" (mkRat 3 10000) r) ++
    errsOf (floatField "RL_GAMMA" (mkRat 99 100) r) ++
    errsOf (intField "RL_BUFFER_SIZE" 100000 r) ++
    errsOf (intField "RL_BATCH_SIZE" 64 r) ++
    errsOf (intField "GA_POPULATION_SIZE" 50 r) ++
    errsOf (intField "GA_GENERATIONS" 100 r) ++
    errsOf (floatField "GA_MUTATION_RATE" (mkRat 1 10) r) ++
    errsOf (floatField "GA_CROSSOVER_RATE" (mkRat 7 10) r) ++
    errsOf (floatField "MAX_DRAWDOWN_PCT" (mkRat 15 100) r) ++
    errsOf (floatField "MAX_DAILY_LOSS_PCT" (mkRat 5 100) r) ++
    errsOf (floatField "CORRELATION_THRESHOLD" (mkRat 7 10) r) := by
  rw [loadErrors_eq_nil_iff] at hok
  obtain ⟨h1, h2, h3, h4, h5, h6, h7, h8, h9, h10, h11, h12, h13, h14, h15, h16, h17, h18, h19, h20, h21, h22, h23, h24, h25⟩ := hok
  rw [strField_congr _ _ (maskKeys_ne (by decide))] at h1
  rw [strField_congr _ _ (maskKeys_ne (by decide))] at h2
  rw [tradingModeField_congr (maskKeys_ne (by decide))] at h3
  rw [strField_congr _ _ (maskKeys_ne (by decide))] at h4
  rw [requiredStrField_congr _ (maskKeys_ne (by decide))] at h5
  rw [requiredStrField_congr _ (maskKeys_ne (by decide))] at h6
  rw [dataSourcesField_congr (maskKeys_ne (by decide))] at h7
  rw [defaultSymbolsField_congr (maskKeys_ne (by decide))] at h8
  rw [maxPositionSizeField_congr (maskKeys_ne (by decide))] at h11
  rw [strField_congr _ _ (maskKeys_ne (by decide))] at h14
  rw [loadErrors_eq]
  simp [h1, h2, h3, h4, h5, h6, h7, h8, h11, h14]

theorem buildSettings_APP_NAME (r : String → Option String) :
    (buildSettings r).APP_NAME = valOf (strField "APP_NAME" "Autonomous Adaptive Trading Engine" r) "" := rfl

theorem buildSettings_VERSION (r : String → Option String) :
    (buildSettings r).VERSION = valOf (strField "VERSION" "1.0.0" r) "" := rfl

theorem buildSettings_TRADING_MODE (r : String → Option String) :
    (buildSettings r).TRADING_MODE = valOf (tradingModeField r) .paper := rfl

theorem buildSettings_LOG_LEVEL (r : String → Option String) :
    (buildSettings r).LOG_LEVEL = valOf (strField "LOG_LEVEL" "INFO" r) "" := rfl

theorem buildSettings_FIREBASE_PROJECT_ID (r : String → Option String) :
    (buildSettings r).FIREBASE_PROJECT_ID = valOf (requiredStrField "FIREBASE_PROJECT_ID" r) "" := rfl

theorem buildSettings_FIREBASE_CREDENTIALS_PATH (r : String → Option String) :
    (buildSettings r).FIREBASE_CREDENTIALS_PATH = valOf (requiredStrField "FIREBASE_CREDENTIALS_PATH" r) "" := rfl

theorem buildSettings_DATA_SOURCES (r : String → Option String) :
    (buildSettings r).DATA_SOURCES = valOf (dataSourcesField r) [] := rfl

theorem buildSettings_DEFAULT_SYMBOLS (r : String → Option String) :
    (buildSettings r).DEFAULT_SYMBOLS = valOf (defaultSymbolsField r) [] := rfl

theorem buildSettings_DATA_UPDATE_INTERVAL (r : String → Option String) :
    (buildSettings r).DATA_UPDATE_INTERVAL = valOf (intField "DATA_UPDATE_INTERVAL" 60 r) 0 := rfl

theorem buildSettings_INITIAL_CAPITAL (r : String → Option String) :
    (buildSettings r).INITIAL_CAPITAL = valOf (floatField "INITIAL_CAPITAL" 10000 r) 0 := rfl

theorem buildSettings_MAX_POSITION_SIZE (r : String → Option String) :
    (buildSettings r).MAX_POSITION_SIZE = valOf (maxPositionSizeField r) 0 := rfl

theorem buildSettings_STOP_LOSS_PCT (r : String → Option String) :
    (buildSettings r).STOP_LOSS_PCT = valOf (floatField "STOP_LOSS_PCT" (mkRat 2 100) r) 0 := rfl

theorem buildSettings_TAKE_PROFIT_PCT (r : String → Option String) :
    (buildSettings r).TAKE_PROFIT_PCT = valOf (floatField "TAKE_PROFIT_PCT" (mkRat 5 100) r) 0 := rfl

theorem buildSettings_RL_MODEL_PATH (r : String → Option String) :
    (buildSettings r).RL_MODEL_PATH = valOf (strField "RL_MODEL_PATH" "models/rl_model.zip" r) "" := rfl

theorem buildSettings_RL_LEARNING_RATE (r : String → Option String) :
    (buildSettings r).RL_LEARNING_RATE = valOf (floatField "RL_LEARNING_RATE" (mkRat 3 10000) r) 0 := rfl

theorem buildSettings_RL_GAMMA (r : String → Option String) :
    (buildSettings r).RL_GAMMA = valOf (floatField "RL_GAMMA" (mkRat 99 100) r) 0 := rfl

theorem buildSettings_RL_BUFFER_SIZE (r : String → Option String) :
    (buildSettings r).RL_BUFFER_SIZE = valOf (intField "RL_BUFFER_SIZE" 100000 r) 0 := rfl

theorem buildSettings_RL_BATCH_SIZE (r : String → Option String) :
    (buildSettings r).RL_BATCH_SIZE = valOf (intField "RL_BATCH_SIZE" 64 r) 0 := rfl

theorem buildSettings_GA_POPULATION_SIZE (r : String → Option String) :
    (buildSettings r).GA_POPULATION_SIZE = valOf (intField "GA_POPULATION_SIZE" 50 r) 0 := rfl

theorem buildSettings_GA_GENERATIONS (r : String → Option String) :
    (buildSettings r).GA_GENERATIONS = valOf (intField "GA_GENERATIONS" 100 r) 0 := rfl

theorem buildSettings_GA_MUTATION_RATE (r : String → Option String) :
    (buildSettings r).GA_MUTATION_RATE = valOf (floatField "GA_MUTATION_RATE" (mkRat 1 10) r) 0 := rfl

theorem buildSettings_GA_CROSSOVER_RATE (r : String → Option String) :
    (buildSettings r).GA_CROSSOVER_RATE = valOf (floatField "GA_CROSSOVER_RATE" (mkRat 7 10) r) 0 := rfl

theorem buildSettings_MAX_DRAWDOWN_PCT (r : String → Option String) :
    (buildSettings r).MAX_DRAWDOWN_PCT = valOf (floatField "MAX_DRAWDOWN_PCT" (mkRat 15 100) r) 0 := rfl

theorem buildSettings_MAX_DAILY_LOSS_PCT (r : String → Option String) :
    (buildSettings r).MAX_DAILY_LOSS_PCT = valOf (floatField "MAX_DAILY_LOSS_PCT" (mkRat 5 100) r) 0 := rfl

theorem buildSettings_CORRELATION_THRESHOLD (r : String → Option String) :
    (buildSettings r).CORRELATION_THRESHOLD = valOf (floatField "CORRELATION_THRESHOLD" (mkRat 7 10) r) 0 := rfl

/-- A minimal valid raw environment: both required Firebase fields present,
everything else left to its compiled-in default. -/
def envFB : RawEnv :=
  [("FIREBASE_PROJECT_ID", "proj"), ("FIREBASE_CREDENTIALS_PATH", "creds")]

/-- C6: get_profile("binance") returns a profile with sandbox = true and
rate limit 10, and every identifier outside the static table (such as
"kraken") yields the distinct not-found outcome none rather than any
default profile; the lookup is deterministic. -/
theorem c6_get_profile_lookup :
    get_profile "binance" =
      some { name := "binance", api_key := none, api_secret := none,
             rate_limit := 10, sandbox := true } ∧
    get_profile "kraken" = none ∧
    (∀ id : String, id ≠ "binance" → id ≠ "coinbase" →
      get_profile id = none) ∧
    (∀ (id : String) (r1 r2 : Option ExchangeConfig),
      get_profile id = r1 → get_profile id = r2 → r1 = r2) := by
  refine ⟨by decide, by decide, ?_, ?_⟩
  · intro id h1 h2
    have hb : (("binance" : String) == id) = false :=
      beq_eq_false_iff_ne.mpr (Ne.symm h1)
    have hc : (("coinbase" : String) == id) = false :=
      beq_eq_false_iff_ne.mpr (Ne.symm h2)
    simp [get_profile, EXCHANGE_CONFIGS, List.find?, hb, hc]
  · intro id r1 r2 e1 e2
    rw [← e1, ← e2]

/-- Witness for C6 at the absent identifier "kraken". -/
theorem c6_witness :
    ("kraken" : String) ≠ "binance" ∧ ("kraken" : String) ≠ "coinbase" ∧
    get_profile "kraken" = none :=
  ⟨by decide, by decide,
   c6_get_profile_lookup.2.2.1 "kraken" (by decide) (by decide)⟩

/-- C10: every entry of the static exchange table has its key equal to the
entry's name, sandbox true, a positive rate limit and no credentials, and
the table holds exactly the entries "binance" (rate limit 10) and
"coinbase" (rate limit 5). -/
theorem c10_exchange_table_invariant :
    (∀ p ∈ EXCHANGE_CONFIGS,
      p.2.name = p.1 ∧ p.2.sandbox = true ∧ 0 < p.2.rate_limit ∧
      p.2.api_key = none ∧ p.2.api_secret = none) ∧
    EXCHANGE_CONFIGS =
      [("binance", { name := "binance", api_key := none, api_secret := none,
                     rate_limit := 10, sandbox := true }),
       ("coinbase", { name := "coinbase", api_key := none,
                      api_secret := none, rate_limit := 5,
                      sandbox := true })] :=
  ⟨by decide, by decide⟩

/-- Witness for C10 at the "binance" entry. -/
theorem c10_witness :
    (let p := (("binance" : String),
      ({ name := "binance", api_key := none, api_secret := none,
         rate_limit := 10, sandbox := true } : ExchangeConfig))
    p.2.name = p.1 ∧ p.2.sandbox = true ∧ 0 < p.2.rate_limit ∧
      p.2.api_key = none ∧ p.2.api_secret = none) :=
  c10_exchange_table_invariant.1 _ (by decide)

/-- Counterexample for C7 as stated: the source's `Settings.Config` does
not set `allow_mutation = False`, so attribute assignment is a mutation
path pydantic-v1 exposes on the snapshot; after a successful concrete
load, assigning MAX_POSITION_SIZE changes the later-observed value away
from the value resolved at load time (0.1), and the assignment is not
even range-validated. -/
theorem c7_counterexample :
    load envFB [] = .ok (buildSettings (resolveRaw envFB [])) ∧
    getField
      (runOps (buildSettings (resolveRaw envFB []))
        [.setSettingsField "MAX_POSITION_SIZE" (.rat 99)])
      "MAX_POSITION_SIZE" = some (.rat 99) ∧
    getField (buildSettings (resolveRaw envFB [])) "MAX_POSITION_SIZE" =
      some (.rat (mkRat 1 10)) ∧
    (FieldVal.rat 99) ≠ .rat (mkRat 1 10) :=
  ⟨rfl, by decide, by decide, by decide⟩

/-- C7 (amended): the snapshot is not enforced immutable — attribute
assignment mutates it — but assignment is the only mutation path: the
component's read operations (field reads, profile lookups) leave the
snapshot unchanged, so every field observed after an assignment-free
sequence of operations equals the value resolved at load time. -/
theorem c7_mutation_only_by_assignment :
    (∀ (st : Settings) (n : String),
      (stepOp st (.readSettingsField n)).1 = st) ∧
    (∀ (st : Settings) (id : String),
      (stepOp st (.getProfileOf id)).1 = st) ∧
    (∀ (env file : RawEnv) (st : Settings) (ops : List ConfigOp)
       (name : String),
      load env file = .ok st →
      (∀ op ∈ ops, isAssignOp op = false) →
      getField (runOps st ops) name = getField st name) := by
  refine ⟨fun st n => rfl, fun st id => rfl, ?_⟩
  intro env file st ops name _ hno
  have h : ∀ (ops : List ConfigOp),
      (∀ op ∈ ops, isAssignOp op = false) →
      ∀ st : Settings, runOps st ops = st := by
    intro ops
    induction ops with
    | nil => intro _ st; rfl
    | cons op rest ih =>
      intro hno st
      have hstep : runOps st (op :: rest) = runOps (stepOp st op).1 rest :=
        rfl
      rw [hstep]
      cases op with
      | readSettingsField n =>
        exact ih (fun o ho => hno o (List.mem_cons_of_mem _ ho)) st
      | getProfileOf id =>
        exact ih (fun o ho => hno o (List.mem_cons_of_mem _ ho)) st
      | setSettingsField n v =>
        have := hno _ (List.mem_cons_self _ _)
        simp [isAssignOp] at this
  rw [h ops hno]

/-- Witness for C7: a successful concrete load followed by an
assignment-free sequence (a read and a profile lookup) leaves the
observed LOG_LEVEL unchanged. -/
theorem c7_witness :
    load envFB [] = .ok (buildSettings (resolveRaw envFB [])) ∧
    (∀ op ∈ ([.readSettingsField "LOG_LEVEL", .getProfileOf "binance"] :
        List ConfigOp), isAssignOp op = false) ∧
    getField
      (runOps (buildSettings (resolveRaw envFB []))
        [.readSettingsField "LOG_LEVEL", .getProfileOf "binance"])
      "LOG_LEVEL" =
    getField (buildSettings (resolveRaw envFB [])) "LOG_LEVEL" :=
  ⟨rfl, by decide,
   c7_mutation_only_by_assignment.2.2 envFB [] _ _ "LOG_LEVEL" rfl
     (by decide)⟩

/-- C8: load is deterministic in the environment, the override file and
the compiled-in defaults: two loads of the same inputs either both fail
with the same errors or both succeed with snapshots equal in every field
value. -/
theorem c8_load_deterministic :
    ∀ (env file : RawEnv),
      (∀ st1 st2, load env file = .ok st1 → load env file = .ok st2 →
        ∀ name, getField st1 name = getField st2 name) ∧
      (∀ e1 e2, load env file = .error e1 → load env file = .error e2 →
        e1 = e2) := by
  intro env file
  constructor
  · intro st1 st2 h1 h2 name
    rw [h1] at h2
    simp only [Except.ok.injEq] at h2
    rw [h2]
  · intro e1 e2 h1 h2
    rw [h1] at h2
    simp only [Except.error.injEq] at h2
    rw [h2]

/-- Witness for C8: two concrete loads of the same valid input observe the
same TRADING_MODE. -/
theorem c8_witness :
    getField (buildSettings (resolveRaw envFB [])) "TRADING_MODE" =
    getField (buildSettings (resolveRaw envFB [])) "TRADING_MODE" :=
  (c8_load_deterministic envFB []).1 _ _ rfl rfl "TRADING_MODE"

/-- C5: the resolved value of every settings field obeys the precedence
law (environment over override file over compiled-in default), and a
successful load exposes, for each of the 25 fields, exactly the coerced
resolved value when the field is set and the compiled-in default when it
is set in neither source. -/
theorem c5_precedence_law :
    (∀ (env file : RawEnv) (key v : String),
      lookupCI env key = some v → resolveRaw env file key = some v) ∧
    (∀ (env file : RawEnv) (key w : String),
      lookupCI env key = none → lookupCI file key = some w →
      resolveRaw env file key = some w) ∧
    (∀ (env file : RawEnv) (key : String),
      lookupCI env key = none → lookupCI file key = none →
      resolveRaw env file key = none) ∧
    (∀ (env file : RawEnv) (st : Settings),
      load env file = .ok st →
      ((resolveRaw env file "APP_NAME" = none → st.APP_NAME = "Autonomous Adaptive Trading Engine") ∧
       (∀ s, resolveRaw env file "APP_NAME" = some s → st.APP_NAME = s)) ∧
      ((resolveRaw env file "VERSION" = none → st.VERSION = "1.0.0") ∧
       (∀ s, resolveRaw env file "VERSION" = some s → st.VERSION = s)) ∧
      ((resolveRaw env file "TRADING_MODE" = none → st.TRADING_MODE = TradingMode.paper) ∧
       (∀ s, resolveRaw env file "TRADING_MODE" = some s →
         some st.TRADING_MODE = tradingModeOfString (strToLower s))) ∧
      ((resolveRaw env file "LOG_LEVEL" = none → st.LOG_LEVEL = "INFO") ∧
       (∀ s, resolveRaw env file "LOG_LEVEL" = some s → st.LOG_LEVEL = s)) ∧
      (∀ s, resolveRaw env file "FIREBASE_PROJECT_ID" = some s → st.FIREBASE_PROJECT_ID = s) ∧
      (∀ s, resolveRaw env file "FIREBASE_CREDENTIALS_PATH" = some s → st.FIREBASE_CREDENTIALS_PATH = s) ∧
      ((resolveRaw env file "DATA_SOURCES" = none → st.DATA_SOURCES = [DataSource.ccxt]) ∧
       (∀ s, resolveRaw env file "DATA_SOURCES" = some s →
         ∃ xs, parseStringList s = some xs ∧
           xs.mapM dataSourceOfString = some st.DATA_SOURCES)) ∧
      ((resolveRaw env file "DEFAULT_SYMBOLS" = none → st.DEFAULT_SYMBOLS = ["BTC/USDT", "ETH/USDT", "SOL/USDT"]) ∧
       (∀ s, resolveRaw env file "DEFAULT_SYMBOLS" = some s → parseStringList s = some st.DEFAULT_SYMBOLS)) ∧
      ((resolveRaw env file "DATA_UPDATE_INTERVAL" = none → st.DATA_UPDATE_INTERVAL = 60) ∧
       (∀ s, resolveRaw env file "DATA_UPDATE_INTERVAL" = some s → parseInt s = some st.DATA_UPDATE_INTERVAL)) ∧
      ((resolveRaw env file "INITIAL_CAPITAL" = none → st.INITIAL_CAPITAL = 10000) ∧
       (∀ s, resolveRaw env file "INITIAL_CAPITAL" = some s → parseFloat s = some st.INITIAL_CAPITAL)) ∧
      ((resolveRaw env file "MAX_POSITION_SIZE" = none → st.MAX_POSITION_SIZE = mkRat 1 10) ∧
       (∀ s, resolveRaw env file "MAX_POSITION_SIZE" = some s → parseFloat s = some st.MAX_POSITION_SIZE)) ∧
      ((resolveRaw env file "STOP_LOSS_PCT" = none → st.STOP_LOSS_PCT = mkRat 2 100) ∧
       (∀ s, resolveRaw env file "STOP_LOSS_PCT" = some s → parseFloat s = some st.STOP_LOSS_PCT)) ∧
      ((resolveRaw env file "TAKE_PROFIT_PCT" = none → st.TAKE_PROFIT_PCT = mkRat 5 100) ∧
       (∀ s, resolveRaw env file "TAKE_PROFIT_PCT" = some s → parseFloat s = some st.TAKE_PROFIT_PCT)) ∧
      ((resolveRaw env file "RL_MODEL_PATH" = none → st.RL_MODEL_PATH = "models/rl_model.zip") ∧
       (∀ s, resolveRaw env file "RL_MODEL_PATH" = some s → st.RL_MODEL_PATH = s)) ∧
      ((resolveRaw env file "RL_LEARNING_RATE" = none → st.RL_LEARNING_RATE = mkRat 3 10000) ∧
       (∀ s, resolveRaw env file "RL_LEARNING_RATE" = some s → parseFloat s = some st.RL_LEARNING_RATE)) ∧
      ((resolveRaw env file "RL_GAMMA" = none → st.RL_GAMMA = mkRat 99 100) ∧
       (∀ s, resolveRaw env file "RL_GAMMA" = some s → parseFloat s = some st.RL_GAMMA)) ∧
      ((resolveRaw env file "RL_BUFFER_SIZE" = none → st.RL_BUFFER_SIZE = 100000) ∧
       (∀ s, resolveRaw env file "RL_BUFFER_SIZE" = some s → parseInt s = some st.RL_BUFFER_SIZE)) ∧
      ((resolveRaw env file "RL_BATCH_SIZE" = none → st.RL_BATCH_SIZE = 64) ∧
       (∀ s, resolveRaw env file "RL_BATCH_SIZE" = some s → parseInt s = some st.RL_BATCH_SIZE)) ∧
      ((resolveRaw env file "GA_POPULATION_SIZE" = none → st.GA_POPULATION_SIZE = 50) ∧
       (∀ s, resolveRaw env file "GA_POPULATION_SIZE" = some s → parseInt s = some st.GA_POPULATION_SIZE)) ∧
      ((resolveRaw env file "GA_GENERATIONS" = none → st.GA_GENERATIONS = 100) ∧
       (∀ s, resolveRaw env file "GA_GENERATIONS" = some s → parseInt s = some st.GA_GENERATIONS)) ∧
      ((resolveRaw env file "GA_MUTATION_RATE" = none → st.GA_MUTATION_RATE = mkRat 1 10) ∧
       (∀ s, resolveRaw env file "GA_MUTATION_RATE" = some s → parseFloat s = some st.GA_MUTATION_RATE)) ∧
      ((resolveRaw env file "GA_CROSSOVER_RATE" = none → st.GA_CROSSOVER_RATE = mkRat 7 10) ∧
       (∀ s, resolveRaw env file "GA_CROSSOVER_RATE" = some s → parseFloat s = some st.GA_CROSSOVER_RATE)) ∧
      ((resolveRaw env file "MAX_DRAWDOWN_PCT" = none → st.MAX_DRAWDOWN_PCT = mkRat 15 100) ∧
       (∀ s, resolveRaw env file "MAX_DRAWDOWN_PCT" = some s → parseFloat s = some st.MAX_DRAWDOWN_PCT)) ∧
      ((resolveRaw env file "MAX_DAILY_LOSS_PCT" = none → st.MAX_DAILY_LOSS_PCT = mkRat 5 100) ∧
       (∀ s, resolveRaw env file "MAX_DAILY_LOSS_PCT" = some s → parseFloat s = some st.MAX_DAILY_LOSS_PCT)) ∧
      ((resolveRaw env file "CORRELATION_THRESHOLD" = none → st.CORRELATION_THRESHOLD = mkRat 7 10) ∧
       (∀ s, resolveRaw env file "CORRELATION_THRESHOLD" = some s → parseFloat s = some st.CORRELATION_THRESHOLD))) := by
  refine ⟨?_, ?_, ?_, ?_⟩
  · intro env file key v h
    simp [resolveRaw, h]
  · intro env file key w h1 h2
    simp [resolveRaw, h1, h2]
  · intro env file key h1 h2
    simp [resolveRaw, h1, h2]
  intro env file st h
  rw [load_ok_iff] at h
  obtain ⟨hnil, rfl⟩ := h
  rw [loadErrors_eq_nil_iff] at hnil
  obtain ⟨e1, e2, e3, e4, e5, e6, e7, e8, e9, e10, e11, e12, e13, e14, e15, e16, e17, e18, e19, e20, e21, e22, e23, e24, e25⟩ := hnil
  refine ⟨⟨?_, ?_⟩, ⟨?_, ?_⟩, ⟨?_, ?_⟩, ⟨?_, ?_⟩, ?_, ?_, ⟨?_, ?_⟩, ⟨?_, ?_⟩, ⟨?_, ?_⟩, ⟨?_, ?_⟩, ⟨?_, ?_⟩, ⟨?_, ?_⟩, ⟨?_, ?_⟩, ⟨?_, ?_⟩, ⟨?_, ?_⟩, ⟨?_, ?_⟩, ⟨?_, ?_⟩, ⟨?_, ?_⟩, ⟨?_, ?_⟩, ⟨?_, ?_⟩, ⟨?_, ?_⟩, ⟨?_, ?_⟩, ⟨?_, ?_⟩, ⟨?_, ?_⟩, ⟨?_, ?_⟩⟩
  · intro hr
    rw [buildSettings_APP_NAME]
    simp [strField, hr, valOf]
  · intro s hr
    rw [buildSettings_APP_NAME]
    simp [strField, hr, valOf]
  · intro hr
    rw [buildSettings_VERSION]
    simp [strField, hr, valOf]
  · intro s hr
    rw [buildSettings_VERSION]
    simp [strField, hr, valOf]
  · intro hr
    rw [buildSettings_TRADING_MODE]
    simp [tradingModeField, hr, valOf]
  · intro s hr
    rw [buildSettings_TRADING_MODE]
    exact (tradingModeField_ok_of_nil hr e3).symm
  · intro hr
    rw [buildSettings_LOG_LEVEL]
    simp [strField, hr, valOf]
  · intro s hr
    rw [buildSettings_LOG_LEVEL]
    simp [strField, hr, valOf]
  · intro s hr
    rw [buildSettings_FIREBASE_PROJECT_ID]
    simp [requiredStrField, hr, valOf]
  · intro s hr
    rw [buildSettings_FIREBASE_CREDENTIALS_PATH]
    simp [requiredStrField, hr, valOf]
  · intro hr
    rw [buildSettings_DATA_SOURCES]
    simp [dataSourcesField, hr, valOf]
  · intro s hr
    rw [buildSettings_DATA_SOURCES]
    exact dataSourcesField_ok_of_nil hr e7
  · intro hr
    rw [buildSettings_DEFAULT_SYMBOLS]
    simp [defaultSymbolsField, hr, valOf]
  · intro s hr
    rw [buildSettings_DEFAULT_SYMBOLS]
    exact defaultSymbolsField_ok_of_nil hr e8
  · intro hr
    rw [buildSettings_DATA_UPDATE_INTERVAL]
    simp [intField, hr, valOf]
  · intro s hr
    rw [buildSettings_DATA_UPDATE_INTERVAL]
    exact intField_ok_of_nil _ _ hr e9
  · intro hr
    rw [buildSettings_INITIAL_CAPITAL]
    simp [floatField, hr, valOf]
  · intro s hr
    rw [buildSettings_INITIAL_CAPITAL]
    exact floatField_ok_of_nil _ _ hr e10
  · intro hr
    rw [buildSettings_MAX_POSITION_SIZE]
    simp [maxPositionSizeField, hr, valOf]
  · intro s hr
    rw [buildSettings_MAX_POSITION_SIZE]
    exact maxPositionSizeField_ok_of_nil hr e11
  · intro hr
    rw [buildSettings_STOP_LOSS_PCT]
    simp [floatField, hr, valOf]
  · intro s hr
    rw [buildSettings_STOP_LOSS_PCT]
    exact floatField_ok_of_nil _ _ hr e12
  · intro hr
    rw [buildSettings_TAKE_PROFIT_PCT]
    simp [floatField, hr, valOf]
  · intro s hr
    rw [buildSettings_TAKE_PROFIT_PCT]
    exact floatField_ok_of_nil _ _ hr e13
  · intro hr
    rw [buildSettings_RL_MODEL_PATH]
    simp [strField, hr, valOf]
  · intro s hr
    rw [buildSettings_RL_MODEL_PATH]
    simp [strField, hr, valOf]
  · intro hr
    rw [buildSettings_RL_LEARNING_RATE]
    simp [floatField, hr, valOf]
  · intro s hr
    rw [buildSettings_RL_LEARNING_RATE]
    exact floatField_ok_of_nil _ _ hr e15
  · intro hr
    rw [buildSettings_RL_GAMMA]
    simp [floatField, hr, valOf]
  · intro s hr
    rw [buildSettings_RL_GAMMA]
    exact floatField_ok_of_nil _ _ hr e16
  · intro hr
    rw [buildSettings_RL_BUFFER_SIZE]
    simp [intField, hr, valOf]
  · intro s hr
    rw [buildSettings_RL_BUFFER_SIZE]
    exact intField_ok_of_nil _ _ hr e17
  · intro hr
    rw [buildSettings_RL_BATCH_SIZE]
    simp [intField, hr, valOf]
  · intro s hr
    rw [buildSettings_RL_BATCH_SIZE]
    exact intField_ok_of_nil _ _ hr e18
  · intro hr
    rw [buildSettings_GA_POPULATION_SIZE]
    simp [intField, hr, valOf]
  · intro s hr
    rw [buildSettings_GA_POPULATION_SIZE]
    exact intField_ok_of_nil _ _ hr e19
  · intro hr
    rw [buildSettings_GA_GENERATIONS]
    simp [intField, hr, valOf]
  · intro s hr
    rw [buildSettings_GA_GENERATIONS]
    exact intField_ok_of_nil _ _ hr e20
  · intro hr
    rw [buildSettings_GA_MUTATION_RATE]
    simp [floatField, hr, valOf]
  · intro s hr
    rw [buildSettings_GA_MUTATION_RATE]
    exact floatField_ok_of_nil _ _ hr e21
  · intro hr
    rw [buildSettings_GA_CROSSOVER_RATE]
    simp [floatField, hr, valOf]
  · intro s hr
    rw [buildSettings_GA_CROSSOVER_RATE]
    exact floatField_ok_of_nil _ _ hr e22
  · intro hr
    rw [buildSettings_MAX_DRAWDOWN_PCT]
    simp [floatField, hr, valOf]
  · intro s hr
    rw [buildSettings_MAX_DRAWDOWN_PCT]
    exact floatField_ok_of_nil _ _ hr e23
  · intro hr
    rw [buildSettings_MAX_DAILY_LOSS_PCT]
    simp [floatField, hr, valOf]
  · intro s hr
    rw [buildSettings_MAX_DAILY_LOSS_PCT]
    exact floatField_ok_of_nil _ _ hr e24
  · intro hr
    rw [buildSettings_CORRELATION_THRESHOLD]
    simp [floatField, hr, valOf]
  · intro s hr
    rw [buildSettings_CORRELATION_THRESHOLD]
    exact floatField_ok_of_nil _ _ hr e25

/-- Witness for C5: environment value wins over a conflicting file value,
the file value is used when the environment lacks the key, the default is
used when both lack it, and a concrete successful load exposes the
environment's LOG_LEVEL and the defaulted APP_NAME. -/
theorem c5_witness :
    resolveRaw [("LOG_LEVEL", "DEBUG")] [("LOG_LEVEL", "WARNING")]
      "LOG_LEVEL" = some "DEBUG" ∧
    resolveRaw [] [("LOG_LEVEL", "WARNING")] "LOG_LEVEL" = some "WARNING" ∧
    resolveRaw [] [] "LOG_LEVEL" = none ∧
    (buildSettings (resolveRaw (("LOG_LEVEL", "DEBUG") :: envFB)
      [])).LOG_LEVEL = "DEBUG" ∧
    (buildSettings (resolveRaw (("LOG_LEVEL", "DEBUG") :: envFB)
      [])).APP_NAME = "Autonomous Adaptive Trading Engine" := by
  refine ⟨c5_precedence_law.1 _ _ _ _ (by decide),
    c5_precedence_law.2.1 _ _ _ _ (by decide) (by decide),
    c5_precedence_law.2.2.1 _ _ _ (by decide) (by decide), ?_, ?_⟩
  · obtain ⟨hA, hV, hTM, hLL, hrest⟩ :=
      c5_precedence_law.2.2.2 (("LOG_LEVEL", "DEBUG") :: envFB) [] _ rfl
    exact hLL.2 "DEBUG" (by decide)
  · obtain ⟨hA, hrest⟩ :=
      c5_precedence_law.2.2.2 (("LOG_LEVEL", "DEBUG") :: envFB) [] _ rfl
    exact hA.1 (by decide)

/-- C1 (amended): if FIREBASE_PROJECT_ID (resp.
FIREBASE_CREDENTIALS_PATH) is absent after resolution, load fails and its
error list contains the MissingRequiredField error for that field,
whatever the other fields hold; an empty-string value, however, is
accepted (see the counterexample). -/
theorem c1_missing_firebase_fields_fail :
    (∀ (env file : RawEnv),
      resolveRaw env file "FIREBASE_PROJECT_ID" = none →
      ∃ errs, load env file = .error errs ∧
        (⟨"FIREBASE_PROJECT_ID", .missingRequiredField,
          "field required"⟩ : ConfigError) ∈ errs) ∧
    (∀ (env file : RawEnv),
      resolveRaw env file "FIREBASE_CREDENTIALS_PATH" = none →
      ∃ errs, load env file = .error errs ∧
        (⟨"FIREBASE_CREDENTIALS_PATH", .missingRequiredField,
          "field required"⟩ : ConfigError) ∈ errs) := by
  constructor
  · intro env file h
    have h5 :
        requiredStrField "FIREBASE_PROJECT_ID" (resolveRaw env file) =
        .error ⟨"FIREBASE_PROJECT_ID", .missingRequiredField,
          "field required"⟩ :=
      requiredStrField_none _ h
    have hmem :
        (⟨"FIREBASE_PROJECT_ID", .missingRequiredField,
          "field required"⟩ : ConfigError) ∈
        loadErrors (resolveRaw env file) := by
      rw [loadErrors_eq, h5]
      simp [errsOf]
    refine ⟨loadErrors (resolveRaw env file), ?_, hmem⟩
    refine (load_error_iff env file _).mpr ⟨rfl, ?_⟩
    intro hnil
    rw [hnil] at hmem
    cases hmem
  · intro env file h
    have h6 :
        requiredStrField "FIREBASE_CREDENTIALS_PATH" (resolveRaw env file) =
        .error ⟨"FIREBASE_CREDENTIALS_PATH", .missingRequiredField,
          "field required"⟩ :=
      requiredStrField_none _ h
    have hmem :
        (⟨"FIREBASE_CREDENTIALS_PATH", .missingRequiredField,
          "field required"⟩ : ConfigError) ∈
        loadErrors (resolveRaw env file) := by
      rw [loadErrors_eq, h6]
      simp [errsOf]
    refine ⟨loadErrors (resolveRaw env file), ?_, hmem⟩
    refine (load_error_iff env file _).mpr ⟨rfl, ?_⟩
    intro hnil
    rw [hnil] at hmem
    cases hmem

/-- Witness for C1: with only the credentials path set, the project id is
absent and load fails with its MissingRequiredField error (and
symmetrically with only the project id set). -/
theorem c1_witness :
    resolveRaw [("FIREBASE_CREDENTIALS_PATH", "creds")] []
      "FIREBASE_PROJECT_ID" = none ∧
    (∃ errs,
      load [("FIREBASE_CREDENTIALS_PATH", "creds")] [] = .error errs ∧
      (⟨"FIREBASE_PROJECT_ID", .missingRequiredField,
        "field required"⟩ : ConfigError) ∈ errs) ∧
    ∃ errs,
      load [("FIREBASE_PROJECT_ID", "proj")] [] = .error errs ∧
      (⟨"FIREBASE_CREDENTIALS_PATH", .missingRequiredField,
        "field required"⟩ : ConfigError) ∈ errs :=
  ⟨by decide,
   c1_missing_firebase_fields_fail.1 [("FIREBASE_CREDENTIALS_PATH", "creds")]
     [] (by decide),
   c1_missing_firebase_fields_fail.2 [("FIREBASE_PROJECT_ID", "proj")] []
     (by decide)⟩

/-- Counterexample for C1 as stated: with FIREBASE_PROJECT_ID set to the
empty string (and the credentials path valid), load succeeds and the
snapshot carries the empty string — it does not fail as the claim
requires for empty required fields. -/
theorem c1_counterexample :
    (load [("FIREBASE_PROJECT_ID", ""),
           ("FIREBASE_CREDENTIALS_PATH", "serviceAccount.json")] []).isOk
      = true ∧
    ((load [("FIREBASE_PROJECT_ID", ""),
            ("FIREBASE_CREDENTIALS_PATH", "serviceAccount.json")]
        []).toOption.map (fun st => st.FIREBASE_PROJECT_ID)) = some "" :=
  ⟨by decide, by decide⟩

/-- C4: a supplied TRADING_MODE string is lower-cased and load succeeds
with that normalized value exactly when it is one of backtest, paper,
live (assuming every other field is valid); otherwise load fails with the
EnumValidationError naming the normalized value. In particular "LIVE"
succeeds as live and "turbo" fails. -/
theorem c4_trading_mode_normalization :
    (∀ (env file : RawEnv) (s : String),
      resolveRaw env file "TRADING_MODE" = some s →
      loadErrors (maskKey (resolveRaw env file) "TRADING_MODE") = [] →
      ((load env file).isOk = true ↔
        (strToLower s = "backtest" ∨ strToLower s = "paper" ∨
         strToLower s = "live")) ∧
      (∀ st, load env file = .ok st →
        some st.TRADING_MODE = tradingModeOfString (strToLower s)) ∧
      (¬(strToLower s = "backtest" ∨ strToLower s = "paper" ∨
         strToLower s = "live") →
        load env file = .error [⟨"TRADING_MODE", .enumValidation,
          "Invalid trading mode: " ++ strToLower s⟩])) ∧
    (load (("TRADING_MODE", "LIVE") :: envFB) []).toOption.map
        (fun st => st.TRADING_MODE) = some .live ∧
    load (("TRADING_MODE", "turbo") :: envFB) [] =
      .error [⟨"TRADING_MODE", .enumValidation,
        "Invalid trading mode: turbo"⟩] := by
  refine ⟨?_, by decide, by decide⟩
  intro env file s hs hok
  have hLE := loadErrors_maskTM (resolveRaw env file) hok
  by_cases hv : strToLower s = "backtest" ∨ strToLower s = "paper" ∨
      strToLower s = "live"
  · have hstep : ∃ m : TradingMode, tradingModeField (resolveRaw env file) =
        .ok m ∧ tradingModeOfString (strToLower s) = some m := by
      rcases hv with h | h | h
      · exact ⟨.backtest, by
          rw [tradingModeField_raw hs]
          simp [validate_trading_mode, h, tradingModeOfString],
          by simp [tradingModeOfString, h]⟩
      · exact ⟨.paper, by
          rw [tradingModeField_raw hs]
          simp [validate_trading_mode, h, tradingModeOfString],
          by simp [tradingModeOfString, h]⟩
      · exact ⟨.live, by
          rw [tradingModeField_raw hs]
          simp [validate_trading_mode, h, tradingModeOfString],
          by simp [tradingModeOfString, h]⟩
    obtain ⟨m, htmf, hmof⟩ := hstep
    have hnil : loadErrors (resolveRaw env file) = [] := by
      rw [hLE, htmf]; rfl
    have hload : load env file = .ok (buildSettings (resolveRaw env file)) :=
      (load_ok_iff env file _).mpr ⟨hnil, rfl⟩
    refine ⟨by simp [hload, hv, Except.isOk, Except.toBool], ?_,
      fun hc => absurd hv hc⟩
    intro st hst
    rw [hload] at hst
    simp only [Except.ok.injEq] at hst
    rw [← hst, buildSettings_TRADING_MODE, htmf, valOf_ok, hmof]
  · have hvt : validate_trading_mode s =
        .error ⟨"TRADING_MODE", .enumValidation,
          "Invalid trading mode: " ++ strToLower s⟩ := by
      simp only [validate_trading_mode]
      rw [if_neg hv]
    have htmf : tradingModeField (resolveRaw env file) =
        .error ⟨"TRADING_MODE", .enumValidation,
          "Invalid trading mode: " ++ strToLower s⟩ := by
      rw [tradingModeField_raw hs, hvt]
    have herr : loadErrors (resolveRaw env file) =
        [⟨"TRADING_MODE", .enumValidation,
          "Invalid trading mode: " ++ strToLower s⟩] := by
      rw [hLE, htmf]; rfl
    have hload : load env file =
        .error [⟨"TRADING_MODE", .enumValidation,
          "Invalid trading mode: " ++ strToLower s⟩] :=
      (load_error_iff env file _).mpr ⟨herr, by simp⟩
    refine ⟨by simp [hload, hv, Except.isOk, Except.toBool], ?_,
      fun _ => hload⟩
    intro st hst
    rw [hload] at hst
    cases hst

/-- Witness for C4 at the mixed-case input "LIVE" in an otherwise valid
environment. -/
theorem c4_witness :
    resolveRaw (("TRADING_MODE", "LIVE") :: envFB) [] "TRADING_MODE" =
      some "LIVE" ∧
    ((load (("TRADING_MODE", "LIVE") :: envFB) []).isOk = true ↔
      (strToLower "LIVE" = "backtest" ∨ strToLower "LIVE" = "paper" ∨
       strToLower "LIVE" = "live")) :=
  ⟨by decide,
   (c4_trading_mode_normalization.1 (("TRADING_MODE", "LIVE") :: envFB) []
     "LIVE" (by decide) (by decide)).1⟩

/-- C3: a supplied MAX_POSITION_SIZE value v loads successfully exactly
when 0 < v ≤ 1 (assuming every other field is valid), and otherwise load
fails with the RangeValidationError; in particular 0 fails, 1 succeeds,
1.5 fails and the untouched default 0.1 succeeds. -/
theorem c3_max_position_size_range :
    (∀ (env file : RawEnv) (s : String) (v : ℚ),
      resolveRaw env file "MAX_POSITION_SIZE" = some s →
      parseFloat s = some v →
      loadErrors (maskKey (resolveRaw env file) "MAX_POSITION_SIZE") = [] →
      ((load env file).isOk = true ↔ (0 < v ∧ v ≤ 1)) ∧
      (¬(0 < v ∧ v ≤ 1) →
        load env file = .error [⟨"MAX_POSITION_SIZE", .rangeValidation,
          "MAX_POSITION_SIZE must be between 0 and 1"⟩]) ∧
      (∀ st, load env file = .ok st → st.MAX_POSITION_SIZE = v)) ∧
    load (("MAX_POSITION_SIZE", "0") :: envFB) [] =
      .error [⟨"MAX_POSITION_SIZE", .rangeValidation,
        "MAX_POSITION_SIZE must be between 0 and 1"⟩] ∧
    (load (("MAX_POSITION_SIZE", "1") :: envFB) []).isOk = true ∧
    (load (("MAX_POSITION_SIZE", "1.5") :: envFB) []).isOk = false ∧
    (load envFB []).toOption.map (fun st => st.MAX_POSITION_SIZE) =
      some (mkRat 1 10) := by
  refine ⟨?_, by decide, by decide, by decide, by decide⟩
  intro env file s v hs hp hok
  have hLE := loadErrors_maskMPS (resolveRaw env file) hok
  have hmf := maxPositionSizeField_parsed hs hp
  by_cases hr : 0 < v ∧ v ≤ 1
  · have hfld : maxPositionSizeField (resolveRaw env file) = .ok v := by
      rw [hmf]; simp [validate_position_size, hr]
    have hnil : loadErrors (resolveRaw env file) = [] := by
      rw [hLE, hfld]; rfl
    have hload : load env file = .ok (buildSettings (resolveRaw env file)) :=
      (load_ok_iff env file _).mpr ⟨hnil, rfl⟩
    refine ⟨by simp [hload, hr, Except.isOk, Except.toBool],
      fun hc => absurd hr hc, ?_⟩
    intro st hst
    rw [hload] at hst
    simp only [Except.ok.injEq] at hst
    rw [← hst, buildSettings_MAX_POSITION_SIZE, hfld, valOf_ok]
  · have hfld : maxPositionSizeField (resolveRaw env file) =
        .error ⟨"MAX_POSITION_SIZE", .rangeValidation,
          "MAX_POSITION_SIZE must be between 0 and 1"⟩ := by
      rw [hmf]; simp [validate_position_size, hr]
    have herr : loadErrors (resolveRaw env file) =
        [⟨"MAX_POSITION_SIZE", .rangeValidation,
          "MAX_POSITION_SIZE must be between 0 and 1"⟩] := by
      rw [hLE, hfld]; rfl
    have hload : load env file =
        .error [⟨"MAX_POSITION_SIZE", .rangeValidation,
          "MAX_POSITION_SIZE must be between 0 and 1"⟩] :=
      (load_error_iff env file _).mpr ⟨herr, by simp⟩
    refine ⟨by simp [hload, hr, Except.isOk, Except.toBool],
      fun _ => hload, ?_⟩
    intro st hst
    rw [hload] at hst
    cases hst

/-- Witness for C3 at the boundary value 1 in an otherwise valid
environment. -/
theorem c3_witness :
    parseFloat "1" = some 1 ∧
    ((load (("MAX_POSITION_SIZE", "1") :: envFB) []).isOk = true ↔
      (0 < (1 : ℚ) ∧ (1 : ℚ) ≤ 1)) :=
  ⟨by decide,
   (c3_max_position_size_range.1 (("MAX_POSITION_SIZE", "1") :: envFB) []
     "1" 1 (by decide) (by decide) (by decide)).1⟩

/-- Counterexample for C2 as stated: with both TRADING_MODE and
MAX_POSITION_SIZE invalid, load fails with TWO errors, one per offending
field, not with a single ConfigError naming only the first field — the
first failing rule does not short-circuit. -/
theorem c2_counterexample :
    load (("TRADING_MODE", "turbo") :: ("MAX_POSITION_SIZE", "0") :: envFB)
      [] =
    .error [⟨"TRADING_MODE", .enumValidation, "Invalid trading mode: turbo"⟩,
            ⟨"MAX_POSITION_SIZE", .rangeValidation,
              "MAX_POSITION_SIZE must be between 0 and 1"⟩] := by
  decide

/-- C2 (amended): validation runs per field in declaration order, but a
failing rule does not short-circuit: when both the TRADING_MODE rule and
the MAX_POSITION_SIZE rule fail, load fails with an error list containing
one error per offending field, each naming the field and its reason, with
the TRADING_MODE error preceding the MAX_POSITION_SIZE error. -/
theorem c2_errors_collected :
    ∀ (env file : RawEnv) (s t : String) (v : ℚ),
      resolveRaw env file "TRADING_MODE" = some s →
      ¬(strToLower s = "backtest" ∨ strToLower s = "paper" ∨
        strToLower s = "live") →
      resolveRaw env file "MAX_POSITION_SIZE" = some t →
      parseFloat t = some v →
      ¬(0 < v ∧ v ≤ 1) →
      ∃ (errs pre mid post : List ConfigError),
        load env file = .error errs ∧
        errs = pre ++
          ⟨"TRADING_MODE", .enumValidation,
            "Invalid trading mode: " ++ strToLower s⟩ ::
          (mid ++
            ⟨"MAX_POSITION_SIZE", .rangeValidation,
              "MAX_POSITION_SIZE must be between 0 and 1"⟩ :: post) := by
  intro env file s t v hts hvs htm hp hr
  have htmf : tradingModeField (resolveRaw env file) =
      .error ⟨"TRADING_MODE", .enumValidation,
        "Invalid trading mode: " ++ strToLower s⟩ := by
    rw [tradingModeField_raw hts]
    simp only [validate_trading_mode]
    rw [if_neg hvs]
  have hmpf : maxPositionSizeField (resolveRaw env file) =
      .error ⟨"MAX_POSITION_SIZE", .rangeValidation,
        "MAX_POSITION_SIZE must be between 0 and 1"⟩ := by
    rw [maxPositionSizeField_parsed htm hp]
    simp [validate_position_size, hr]
  refine ⟨loadErrors (resolveRaw env file),
    errsOf (strField "APP_NAME" "Autonomous Adaptive Trading Engine"
      (resolveRaw env file)) ++
    errsOf (strField "VERSION" "1.0.0" (resolveRaw env file)),
    errsOf (strField "LOG_LEVEL" "INFO" (resolveRaw env file)) ++
    errsOf (requiredStrField "FIREBASE_PROJECT_ID" (resolveRaw env file)) ++
    errsOf (requiredStrField "FIREBASE_CREDENTIALS_PATH"
      (resolveRaw env file)) ++
    errsOf (dataSourcesField (resolveRaw env file)) ++
    errsOf (defaultSymbolsField (resolveRaw env file)) ++
    errsOf (intField "DATA_UPDATE_INTERVAL" 60 (resolveRaw env file)) ++
    errsOf (floatField "INITIAL_CAPITAL" 10000 (resolveRaw env file)),
    errsOf (floatField "STOP_LOSS_PCT" (mkRat 2 100) (resolveRaw env file)) ++
    errsOf (floatField "TAKE_PROFIT_PCT" (mkRat 5 100)
      (resolveRaw env file)) ++
    errsOf (strField "RL_MODEL_PATH" "models/rl_model.zip"
      (resolveRaw env file)) ++
    errsOf (floatField "RL_LEARNING_RATE" (mkRat 3 10000)
      (resolveRaw env file)) ++
    errsOf (floatField "RL_GAMMA" (mkRat 99 100) (resolveRaw env file)) ++
    errsOf (intField "RL_BUFFER_SIZE" 100000 (resolveRaw env file)) ++
    errsOf (intField "RL_BATCH_SIZE" 64 (resolveRaw env file)) ++
    errsOf (intField "GA_POPULATION_SIZE" 50 (resolveRaw env file)) ++
    errsOf (intField "GA_GENERATIONS" 100 (resolveRaw env file)) ++
    errsOf (floatField "GA_MUTATION_RATE" (mkRat 1 10)
      (resolveRaw env file)) ++
    errsOf (floatField "GA_CROSSOVER_RATE" (mkRat 7 10)
      (resolveRaw env file)) ++
    errsOf (floatField "MAX_DRAWDOWN_PCT" (mkRat 15 100)
      (resolveRaw env file)) ++
    errsOf (floatField "MAX_DAILY_LOSS_PCT" (mkRat 5 100)
      (resolveRaw env file)) ++
    errsOf (floatField "CORRELATION_THRESHOLD" (mkRat 7 10)
      (resolveRaw env file)), ?_, ?_⟩
  · refine (load_error_iff env file _).mpr ⟨rfl, ?_⟩
    intro hc
    have hmem : (⟨"TRADING_MODE", .enumValidation,
        "Invalid trading mode: " ++ strToLower s⟩ : ConfigError) ∈
        loadErrors (resolveRaw env file) := by
      rw [loadErrors_eq, htmf]
      simp [errsOf]
    rw [hc] at hmem
    cases hmem
  · rw [loadErrors_eq, htmf, hmpf]
    simp [errsOf, List.append_assoc]

/-- Witness for C2 at the concrete doubly-invalid input ("turbo", "0"). -/
theorem c2_witness :
    resolveRaw (("TRADING_MODE", "turbo") :: ("MAX_POSITION_SIZE", "0") ::
      envFB) [] "TRADING_MODE" = some "turbo" ∧
    parseFloat "0" = some 0 ∧
    ∃ (errs pre mid post : List ConfigError),
      load (("TRADING_MODE", "turbo") :: ("MAX_POSITION_SIZE", "0") ::
        envFB) [] = .error errs ∧
      errs = pre ++
        ⟨"TRADING_MODE", .enumValidation,
          "Invalid trading mode: " ++ strToLower "turbo"⟩ ::
        (mid ++
          ⟨"MAX_POSITION_SIZE", .rangeValidation,
            "MAX_POSITION_SIZE must be between 0 and 1"⟩ :: post) :=
  ⟨by decide, by decide,
   c2_errors_collected _ [] "turbo" "0" 0 (by decide) (by decide)
     (by decide) (by decide) (by decide)⟩

/-- C9: no numeric field other than MAX_POSITION_SIZE is range-validated:
whenever every raw numeric value coerces to its declared type (and the
rest of the configuration is valid), load succeeds with exactly the
coerced values, however semantically nonsensical; in particular
INITIAL_CAPITAL = -10000, STOP_LOSS_PCT = -1, MAX_DRAWDOWN_PCT = 5 and
GA_POPULATION_SIZE = -50 are all accepted. -/
theorem c9_no_range_check_on_other_numeric_fields :
    (∀ (env file : RawEnv)
       (s9 : String) (i9 : Int)
       (s10 : String) (q10 : ℚ)
       (s12 : String) (q12 : ℚ)
       (s13 : String) (q13 : ℚ)
       (s15 : String) (q15 : ℚ)
       (s16 : String) (q16 : ℚ)
       (s17 : String) (i17 : Int)
       (s18 : String) (i18 : Int)
       (s19 : String) (i19 : Int)
       (s20 : String) (i20 : Int)
       (s21 : String) (q21 : ℚ)
       (s22 : String) (q22 : ℚ)
       (s23 : String) (q23 : ℚ)
       (s24 : String) (q24 : ℚ)
       (s25 : String) (q25 : ℚ)
       ,
      resolveRaw env file "DATA_UPDATE_INTERVAL" = some s9 →
      parseInt s9 = some i9 →
      resolveRaw env file "INITIAL_CAPITAL" = some s10 →
      parseFloat s10 = some q10 →
      resolveRaw env file "STOP_LOSS_PCT" = some s12 →
      parseFloat s12 = some q12 →
      resolveRaw env file "TAKE_PROFIT_PCT" = some s13 →
      parseFloat s13 = some q13 →
      resolveRaw env file "RL_LEARNING_RATE" = some s15 →
      parseFloat s15 = some q15 →
      resolveRaw env file "RL_GAMMA" = some s16 →
      parseFloat s16 = some q16 →
      resolveRaw env file "RL_BUFFER_SIZE" = some s17 →
      parseInt s17 = some i17 →
      resolveRaw env file "RL_BATCH_SIZE" = some s18 →
      parseInt s18 = some i18 →
      resolveRaw env file "GA_POPULATION_SIZE" = some s19 →
      parseInt s19 = some i19 →
      resolveRaw env file "GA_GENERATIONS" = some s20 →
      parseInt s20 = some i20 →
      resolveRaw env file "GA_MUTATION_RATE" = some s21 →
      parseFloat s21 = some q21 →
      resolveRaw env file "GA_CROSSOVER_RATE" = some s22 →
      parseFloat s22 = some q22 →
      resolveRaw env file "MAX_DRAWDOWN_PCT" = some s23 →
      parseFloat s23 = some q23 →
      resolveRaw env file "MAX_DAILY_LOSS_PCT" = some s24 →
      parseFloat s24 = some q24 →
      resolveRaw env file "CORRELATION_THRESHOLD" = some s25 →
      parseFloat s25 = some q25 →
      loadErrors (maskKeys (resolveRaw env file) numericFieldKeys) = [] →
      ∃ st, load env file = .ok st ∧
        st.DATA_UPDATE_INTERVAL = i9 ∧
        st.INITIAL_CAPITAL = q10 ∧
        st.STOP_LOSS_PCT = q12 ∧
        st.TAKE_PROFIT_PCT = q13 ∧
        st.RL_LEARNING_RATE = q15 ∧
        st.RL_GAMMA = q16 ∧
        st.RL_BUFFER_SIZE = i17 ∧
        st.RL_BATCH_SIZE = i18 ∧
        st.GA_POPULATION_SIZE = i19 ∧
        st.GA_GENERATIONS = i20 ∧
        st.GA_MUTATION_RATE = q21 ∧
        st.GA_CROSSOVER_RATE = q22 ∧
        st.MAX_DRAWDOWN_PCT = q23 ∧
        st.MAX_DAILY_LOSS_PCT = q24 ∧
        st.CORRELATION_THRESHOLD = q25) ∧
    (load (("INITIAL_CAPITAL", "-10000") :: ("STOP_LOSS_PCT", "-1") ::
       ("MAX_DRAWDOWN_PCT", "5") :: ("GA_POPULATION_SIZE", "-50") :: envFB) []).isOk = true ∧
    (load (("INITIAL_CAPITAL", "-10000") :: ("STOP_LOSS_PCT", "-1") ::
       ("MAX_DRAWDOWN_PCT", "5") :: ("GA_POPULATION_SIZE", "-50") :: envFB) []).toOption.map
      (fun st => (st.INITIAL_CAPITAL, st.STOP_LOSS_PCT, st.MAX_DRAWDOWN_PCT,
        st.GA_POPULATION_SIZE)) = some (-10000, -1, 5, -50) := by
  refine ⟨?_, by decide, by decide⟩
  intro env file s9 i9 s10 q10 s12 q12 s13 q13 s15 q15 s16 q16 s17 i17 s18 i18 s19 i19 s20 i20 s21 q21 s22 q22 s23 q23 s24 q24 s25 q25 hsi9 hpi9 hsq10 hpq10 hsq12 hpq12 hsq13 hpq13 hsq15 hpq15 hsq16 hpq16 hsi17 hpi17 hsi18 hpi18 hsi19 hpi19 hsi20 hpi20 hsq21 hpq21 hsq22 hpq22 hsq23 hpq23 hsq24 hpq24 hsq25 hpq25 hok
  have hLE := loadErrors_maskNumeric (resolveRaw env file) hok
  have hfi9 : intField "DATA_UPDATE_INTERVAL" 60 (resolveRaw env file) = .ok i9 :=
    intField_parsed _ _ hsi9 hpi9
  have hfq10 : floatField "INITIAL_CAPITAL" 10000 (resolveRaw env file) = .ok q10 :=
    floatField_parsed _ _ hsq10 hpq10
  have hfq12 : floatField "STOP_LOSS_PCT" (mkRat 2 100) (resolveRaw env file) = .ok q12 :=
    floatField_parsed _ _ hsq12 hpq12
  have hfq13 : floatField "TAKE_PROFIT_PCT" (mkRat 5 100) (resolveRaw env file) = .ok q13 :=
    floatField_parsed _ _ hsq13 hpq13
  have hfq15 : floatField "RL_LEARNING_RATE" (mkRat 3 10000) (resolveRaw env file) = .ok q15 :=
    floatField_parsed _ _ hsq15 hpq15
  have hfq16 : floatField "RL_GAMMA" (mkRat 99 100) (resolveRaw env file) = .ok q16 :=
    floatField_parsed _ _ hsq16 hpq16
  have hfi17 : intField "RL_BUFFER_SIZE" 100000 (resolveRaw env file) = .ok i17 :=
    intField_parsed _ _ hsi17 hpi17
  have hfi18 : intField "RL_BATCH_SIZE" 64 (resolveRaw env file) = .ok i18 :=
    intField_parsed _ _ hsi18 hpi18
  have hfi19 : intField "GA_POPULATION_SIZE" 50 (resolveRaw env file) = .ok i19 :=
    intField_parsed _ _ hsi19 hpi19
  have hfi20 : intField "GA_GENERATIONS" 100 (resolveRaw env file) = .ok i20 :=
    intField_parsed _ _ hsi20 hpi20
  have hfq21 : floatField "GA_MUTATION_RATE" (mkRat 1 10) (resolveRaw env file) = .ok q21 :=
    floatField_parsed _ _ hsq21 hpq21
  have hfq22 : floatField "GA_CROSSOVER_RATE" (mkRat 7 10) (resolveRaw env file) = .ok q22 :=
    floatField_parsed _ _ hsq22 hpq22
  have hfq23 : floatField "MAX_DRAWDOWN_PCT" (mkRat 15 100) (resolveRaw env file) = .ok q23 :=
    floatField_parsed _ _ hsq23 hpq23
  have hfq24 : floatField "MAX_DAILY_LOSS_PCT" (mkRat 5 100) (resolveRaw env file) = .ok q24 :=
    floatField_parsed _ _ hsq24 hpq24
  have hfq25 : floatField "CORRELATION_THRESHOLD" (mkRat 7 10) (resolveRaw env file) = .ok q25 :=
    floatField_parsed _ _ hsq25 hpq25
  have hnil : loadErrors (resolveRaw env file) = [] := by
    rw [hLE, hfi9, hfq10, hfq12, hfq13, hfq15, hfq16, hfi17, hfi18, hfi19, hfi20, hfq21, hfq22, hfq23, hfq24, hfq25]; rfl
  have hload : load env file = .ok (buildSettings (resolveRaw env file)) :=
    (load_ok_iff env file _).mpr ⟨hnil, rfl⟩
  refine ⟨buildSettings (resolveRaw env file), hload, ?_, ?_, ?_, ?_, ?_, ?_, ?_, ?_, ?_, ?_, ?_, ?_, ?_, ?_, ?_⟩
  · rw [buildSettings_DATA_UPDATE_INTERVAL, hfi9, valOf_ok]
  · rw [buildSettings_INITIAL_CAPITAL, hfq10, valOf_ok]
  · rw [buildSettings_STOP_LOSS_PCT, hfq12, valOf_ok]
  · rw [buildSettings_TAKE_PROFIT_PCT, hfq13, valOf_ok]
  · rw [buildSettings_RL_LEARNING_RATE, hfq15, valOf_ok]
  · rw [buildSettings_RL_GAMMA, hfq16, valOf_ok]
  · rw [buildSettings_RL_BUFFER_SIZE, hfi17, valOf_ok]
  · rw [buildSettings_RL_BATCH_SIZE, hfi18, valOf_ok]
  · rw [buildSettings_GA_POPULATION_SIZE, hfi19, valOf_ok]
  · rw [buildSettings_GA_GENERATIONS, hfi20, valOf_ok]
  · rw [buildSettings_GA_MUTATION_RATE, hfq21, valOf_ok]
  · rw [buildSettings_GA_CROSSOVER_RATE, hfq22, valOf_ok]
  · rw [buildSettings_MAX_DRAWDOWN_PCT, hfq23, valOf_ok]
  · rw [buildSettings_MAX_DAILY_LOSS_PCT, hfq24, valOf_ok]
  · rw [buildSettings_CORRELATION_THRESHOLD, hfq25, valOf_ok]

/-- The concrete raw environment of the C9 witness: every numeric field
set, several to semantically nonsensical values. -/
def envNumeric : RawEnv :=
  ("DATA_UPDATE_INTERVAL", "60") :: ("INITIAL_CAPITAL", "-10000") :: ("STOP_LOSS_PCT", "-1") :: ("TAKE_PROFIT_PCT", "0.05") :: ("RL_LEARNING_RATE", "0.0003") :: ("RL_GAMMA", "0.99") :: ("RL_BUFFER_SIZE", "100000") :: ("RL_BATCH_SIZE", "64") :: ("GA_POPULATION_SIZE", "-50") :: ("GA_GENERATIONS", "100") :: ("GA_MUTATION_RATE", "0.1") :: ("GA_CROSSOVER_RATE", "0.7") :: ("MAX_DRAWDOWN_PCT", "5") :: ("MAX_DAILY_LOSS_PCT", "0.05") :: ("CORRELATION_THRESHOLD", "0.7") :: envFB

/-- Witness for C9 at a concrete environment carrying nonsensical numeric
values that all coerce. -/
theorem c9_witness :
    parseInt "60" = some 60 ∧
    parseFloat "-10000" = some (-10000) ∧
    parseFloat "-1" = some (-1) ∧
    parseFloat "0.05" = some (mkRat 5 100) ∧
    parseFloat "0.0003" = some (mkRat 3 10000) ∧
    parseFloat "0.99" = some (mkRat 99 100) ∧
    parseInt "100000" = some 100000 ∧
    parseInt "64" = some 64 ∧
    parseInt "-50" = some (-50) ∧
    parseInt "100" = some 100 ∧
    parseFloat "0.1" = some (mkRat 1 10) ∧
    parseFloat "0.7" = some (mkRat 7 10) ∧
    parseFloat "5" = some 5 ∧
    parseFloat "0.05" = some (mkRat 5 100) ∧
    parseFloat "0.7" = some (mkRat 7 10) ∧
    ∃ st, load envNumeric [] = .ok st ∧
      st.DATA_UPDATE_INTERVAL = 60 ∧
      st.INITIAL_CAPITAL = (-10000) ∧
      st.STOP_LOSS_PCT = (-1) ∧
      st.TAKE_PROFIT_PCT = (mkRat 5 100) ∧
      st.RL_LEARNING_RATE = (mkRat 3 10000) ∧
      st.RL_GAMMA = (mkRat 99 100) ∧
      st.RL_BUFFER_SIZE = 100000 ∧
      st.RL_BATCH_SIZE = 64 ∧
      st.GA_POPULATION_SIZE = (-50) ∧
      st.GA_GENERATIONS = 100 ∧
      st.GA_MUTATION_RATE = (mkRat 1 10) ∧
      st.GA_CROSSOVER_RATE = (mkRat 7 10) ∧
      st.MAX_DRAWDOWN_PCT = 5 ∧
      st.MAX_DAILY_LOSS_PCT = (mkRat 5 100) ∧
      st.CORRELATION_THRESHOLD = (mkRat 7 10) :=
  ⟨by decide, by decide, by decide, by decide, by decide, by decide, by decide, by decide, by decide, by decide, by decide, by decide, by decide, by decide, by decide,
   c9_no_range_check_on_other_numeric_fields.1 envNumeric []
     "60" 60 "-10000" (-10000) "-1" (-1) "0.05" (mkRat 5 100) "0.0003" (mkRat 3 10000) "0.99" (mkRat 99 100) "100000" 100000 "64" 64 "-50" (-50) "100" 100 "0.1" (mkRat 1 10) "0.7" (mkRat 7 10) "5" 5 "0.05" (mkRat 5 100) "0.7" (mkRat 7 10)
     (by decide) (by decide) (by decide) (by decide) (by decide) (by decide) (by decide) (by decide) (by decide) (by decide) (by decide) (by decide) (by decide) (by decide) (by decide) (by decide) (by decide) (by decide) (by decide) (by decide) (by decide) (by decide) (by decide) (by decide) (by decide) (by decide) (by decide) (by decide) (by decide) (by decide) (by decide)⟩

